import Mathlib

/-!
Verification of the script-scoring core of the `analytics` repository.

This file is a shallow embedding, in Lean 4, of the scoring pipeline in
`app/services/script_scoring_service.py` together with the persistence
entry point `store_script_score` of `app/services/local_db_service.py`.

Modelling conventions:

* Python numbers (ints and floats) are modelled as exact rationals `ℚ`.
  `round(x)` / `round(x, n)` are modelled as round-half-up on `ℚ`
  (`pyRoundZ` / `pyRoundTo`); CPython rounds binary doubles half-to-even,
  but exact decimal ties are not representable in binary floating point,
  so the tie-breaking rule is immaterial for the properties proved here.
* `math`/`statistics` square roots (inside `statistics.stdev`) are modelled
  by `ratSqrt`, a truncating rational square root with 6 decimal digits.
  No theorem below depends on the rounding of `ratSqrt`; every property
  proved about standard-deviation-derived scores holds for an arbitrary
  nonnegative value of the square root.
* Python strings are Lean `String`s; all text scanning is done on the
  underlying `List Char` with executable recursions mirroring the regular
  expressions of the source (which are plain phrases wrapped in `\b`
  word boundaries, plus one lookahead for the filler word `like`).
  `\w` is modelled as ASCII alphanumeric or underscore.
* Collaborator calls (`local_db`, BigQuery, the LLM client) are supplied
  by an explicit environment `Env`.  A call that the Python source lets
  raise is an `Except PyError`; a call whose Python implementation
  swallows its own exceptions (for example
  `local_db.get_approved_brand_for_silo`) is a total function.
  The three LLM calls are modelled as environment-supplied
  `Except PyError <parsed response>` values: the `.error` case covers both
  a raised exception and an unparseable (non-JSON) response, since
  `json.loads` raises inside the same `try` block in the source.
* LLM prompt construction is not observable (the response is supplied by
  the environment), so prompt strings and the phrase lists that only feed
  the prompt (`LLM_SMELL_PHRASES`, `VAGUE_CREDIBILITY_PHRASES`,
  `OBJECTION_PHRASES`) are not reproduced.
-/

/-! ## Python rounding on exact rationals -/

/-- Python `round(x)` (to an int), modelled as round-half-up on `ℚ`. -/
def pyRoundZ (x : ℚ) : ℤ := round x

/-- Python `round(x, n)` for `n` decimal digits. -/
def pyRoundTo (n : ℕ) (x : ℚ) : ℚ := ((round (x * (10 : ℚ) ^ n) : ℤ) : ℚ) / (10 : ℚ) ^ n

/-- Python `round(x, 1)`. -/
def pyRound1 : ℚ → ℚ := pyRoundTo 1

/-- Python `round(x, 2)`. -/
def pyRound2 : ℚ → ℚ := pyRoundTo 2

/-- Python `round(x, 4)`. -/
def pyRound4 : ℚ → ℚ := pyRoundTo 4

/-! ## Python string primitives on `List Char` -/

/-- Python whitespace (`str.split()` defaults and regex `\s`, ASCII part). -/
def pyIsSpace (c : Char) : Bool :=
  c = ' ' || c = '\t' || c = '\n' || c = '\r' || c = '\x0b' || c = '\x0c'

/-- Regex `\w`: ASCII alphanumeric or underscore. -/
def isWordChar (c : Char) : Bool := c.isAlphanum || c = '_'

/-- Python `str.lower()` (ASCII). -/
def pyLower (s : String) : String := ⟨s.data.map Char.toLower⟩

/-- Python `needle in hay` substring test. -/
def infixOf (nd : List Char) : List Char → Bool
  | [] => nd.isEmpty
  | c :: cs => nd.isPrefixOf (c :: cs) || infixOf nd cs

/-- Python `needle in hay` on strings. -/
def strContains (hay nd : String) : Bool := infixOf nd.data hay.data

/-- Case-insensitive containment, used to state properties about reason texts. -/
def containsLower (hay nd : String) : Bool := strContains (pyLower hay) nd

/-- Helper for Python `str.split()`: raw whitespace-separated groups. -/
def splitWsAux : List Char → List Char → List (List Char)
  | [], acc => [acc.reverse]
  | c :: cs, acc =>
    if pyIsSpace c then acc.reverse :: splitWsAux cs [] else splitWsAux cs (c :: acc)

/-- Python `s.split()`: whitespace-separated words, empties dropped. -/
def wordsOf (l : List Char) : List (List Char) :=
  (splitWsAux l []).filter (fun w => !w.isEmpty)

/-- Python `s.split()` word count of a string. -/
def pyWordCount (s : String) : ℕ := (wordsOf s.data).length

/-- Helper for splitting on a character class (regex `re.split`). -/
def splitPredAux (p : Char → Bool) : List Char → List Char → List (List Char)
  | [], acc => [acc.reverse]
  | c :: cs, acc =>
    if p c then acc.reverse :: splitPredAux p cs [] else splitPredAux p cs (c :: acc)

/-- Split on every character satisfying `p` (keeping empty groups). -/
def splitPred (p : Char → Bool) (l : List Char) : List (List Char) :=
  splitPredAux p l []

/-- Python `s.strip()`. -/
def pyStrip (l : List Char) : List Char :=
  ((l.dropWhile pyIsSpace).reverse.dropWhile pyIsSpace).reverse

/-! ## Regex phrase counting (`re.findall` of `\b...\b` patterns) -/

/-- Character at an index, if any. -/
def charAt (l : List Char) (i : ℕ) : Option Char := (l.drop i).head?

/-- Whether an optional character is a `\w` character (`none` = text edge). -/
def isWordCharOpt : Option Char → Bool
  | some c => isWordChar c
  | none => false

/-- Does the literal pattern match at index `i`, with `\b` word boundaries on
both sides?  (Every pattern of the source starts and ends with a `\w` char.) -/
def boundedMatchAt (text pat : List Char) (i : ℕ) : Bool :=
  pat.isPrefixOf (text.drop i)
  && (i == 0 || !isWordCharOpt (charAt text (i - 1)))
  && !isWordCharOpt (charAt text (i + pat.length))

/-- Left-to-right non-overlapping match count (the semantics of `re.findall`
for these patterns), driven by a fuel counter. -/
def countPatAux (text pat : List Char) : ℕ → ℕ → ℕ
  | _, 0 => 0
  | i, fuel + 1 =>
    if text.length ≤ i then 0
    else if boundedMatchAt text pat i then
      1 + countPatAux text pat (i + max pat.length 1) fuel
    else countPatAux text pat (i + 1) fuel

/-- Number of `re.findall` matches of `\bpat\b` in `text`. -/
def countPat (text pat : List Char) : ℕ := countPatAux text pat 0 (text.length + 1)

/-- The lookahead of the filler pattern `\blike\b(?=\s*,|\s*\.|\s+you)`,
applied to the text following the match. -/
def likeLookahead (rest : List Char) : Bool :=
  let ws := rest.takeWhile pyIsSpace
  let after := rest.drop ws.length
  after.head? == some ',' || after.head? == some '.'
    || (!ws.isEmpty && "you".data.isPrefixOf after)

/-- Match count for the special `like` filler pattern. -/
def countLikeAux (text : List Char) : ℕ → ℕ → ℕ
  | _, 0 => 0
  | i, fuel + 1 =>
    if text.length ≤ i then 0
    else if boundedMatchAt text "like".data i && likeLookahead (text.drop (i + 4)) then
      1 + countLikeAux text (i + 4) fuel
    else countLikeAux text (i + 1) fuel

/-- Number of matches of the `like` filler pattern. -/
def countLike (text : List Char) : ℕ := countLikeAux text 0 (text.length + 1)

/-- Total match count of a list of plain `\b...\b` phrases. -/
def phraseCount (text : List Char) (ps : List String) : ℕ :=
  (ps.map (fun p => countPat text p.data)).sum

/-! ## `statistics` helpers -/

/-- Python `statistics.mean` (callers guarantee a nonempty list). -/
def pyMean (l : List ℚ) : ℚ := l.sum / (l.length : ℚ)

/-- Sample variance with Bessel correction, as used by `statistics.stdev`
(callers guarantee at least two elements). -/
def pySampleVar (l : List ℚ) : ℚ :=
  ((l.map (fun x => (x - pyMean l) ^ 2)).sum) / ((l.length : ℚ) - 1)

/-- Rational stand-in for `math.sqrt`, truncated to 6 decimal digits.
No theorem in this file depends on its rounding, only on nonnegativity. -/
def ratSqrt (x : ℚ) : ℚ :=
  if x ≤ 0 then 0 else ((Nat.sqrt (⌊x * 10 ^ 12⌋).toNat : ℚ)) / 10 ^ 6

/-- Python `statistics.stdev` (sample standard deviation). -/
def pyStdev (l : List ℚ) : ℚ := ratSqrt (pySampleVar l)

/-- Python `[xs[i:i+cs] for i in range(0, len(xs), cs)]` (`cs ≥ 1` at call sites). -/
def chunksOfAux (cs : ℕ) : ℕ → List α → List (List α)
  | 0, _ => []
  | _, [] => []
  | fuel + 1, l => l.take cs :: chunksOfAux cs fuel (l.drop cs)

/-- Chunking a list into slices of size `cs`. -/
def chunksOf (cs : ℕ) (l : List α) : List (List α) := chunksOfAux cs l.length l

/-! ## Data model

`GateCheckResult` and `ScriptScore` are imported by the scoring service from
`app.models`, but that module does not define them; they are modelled from
the spec (§3 data model and §4.5) and from how the service populates them. -/

/-- One gate-check outcome (6 per scoring run). -/
structure GateCheckResult where
  gate_name : String
  passed : Bool
  failure_reason : String := ""
  deriving DecidableEq, Repr, Inhabited

/-- A named action item from the quality scorer. -/
structure ActionItem where
  priority : ℚ := 0
  dimension : String := ""
  action : String := ""
  specific_detail : String := ""
  deriving DecidableEq, Repr, Inhabited

/-- One parsed quality-dimension payload.  The pipeline only ever reads the
`total` key of each dimension object (`data.get(dim, ...).get(total, 0)`);
the sub-score fields are round-tripped into `dimension_details` unread, so
they are not modelled field by field. -/
structure DimData where
  total : Option ℚ := none
  deriving DecidableEq, Repr, Inhabited

/-- Parsed JSON of the quality-scoring LLM response.  `none` fields model
missing keys (Python `dict.get` defaults apply). -/
structure QualityData where
  quality_score_total : Option ℚ := none
  specificity_proof_density : Option DimData := none
  conversion_architecture : Option DimData := none
  retention_architecture : Option DimData := none
  authenticity_voice : Option DimData := none
  viewer_sophistication : Option DimData := none
  production_standards : Option DimData := none
  top_3_action_items : List ActionItem := []
  deriving DecidableEq, Repr, Inhabited

/-- The dict returned by `score_quality` on success. -/
structure QualityResult where
  quality_score_total : ℚ
  specificity_score : ℚ
  conversion_arch_score : ℚ
  retention_arch_score : ℚ
  authenticity_score : ℚ
  viewer_respect_score : ℚ
  production_score : ℚ
  dimension_details : List (String × DimData)
  action_items : List ActionItem
  deriving DecidableEq, Repr, Inhabited

/-- Parsed JSON of one AI gate (`passed` / `failure_reason` keys, possibly
missing). -/
structure GateData where
  passed : Option Bool := none
  failure_reason : Option String := none
  deriving DecidableEq, Repr, Inhabited

/-- Parsed JSON of the AI-gate LLM response. -/
structure AiGateResponse where
  partner_safety : Option GateData := none
  cross_video_coherence : Option GateData := none
  funnel_match : Option GateData := none
  factual_accuracy : Option GateData := none
  deriving DecidableEq, Repr, Inhabited

/-- A personality moment reported by the personality-density LLM call. -/
structure Moment where
  type : String := ""
  quote : String := ""
  timestamp_hint : String := ""
  deriving DecidableEq, Repr, Inhabited

/-- Parsed JSON of the personality-density LLM response. -/
structure PersonalityData where
  total_count : ℚ := 0
  moments : List Moment := []
  deriving DecidableEq, Repr, Inhabited

/-- The dict returned by `_score_personality_density`. -/
structure PersonalityResult where
  score : ℤ
  moments : List Moment
  total_count : ℚ
  per_minute : ℚ
  deriving DecidableEq, Repr, Inhabited

/-- One `top_emotions` entry of a Hume emotion segment. -/
structure EmotionEntry where
  emotion : String
  score : ℚ
  deriving DecidableEq, Repr, Inhabited

/-- One Hume emotion segment. -/
structure EmotionSegment where
  top_emotions : List EmotionEntry := []
  deriving DecidableEq, Repr, Inhabited

/-- The `emotions` payload stored with a transcript (`segments` key). -/
structure EmotionsData where
  segments : List EmotionSegment := []
  deriving DecidableEq, Repr, Inhabited

/-- The dict returned by `_score_rizz_vocal`.  Diagnostic keys that the
source adds only on some paths are `Option`s. -/
structure VocalResult where
  available : Bool := false
  total_raw : ℚ := 0
  conviction_score : ℤ := 0
  conviction_consistency : ℤ := 0
  cta_conviction_delta : ℤ := 0
  filler_density_score : ℤ := 0
  pacing_variation_score : ℤ := 0
  filler_count : ℕ := 0
  fillers_per_min : ℚ := 0
  note : Option String := none
  avg_confidence : Option ℚ := none
  confidence_std_dev : Option ℚ := none
  cta_delta : Option ℚ := none
  cta_avg_confidence : Option ℚ := none
  deriving DecidableEq, Repr, Inhabited

/-- The dict returned by `_score_rizz_copy`. -/
structure CopyResult where
  total_raw : ℤ := 0
  personality_density : ℤ := 0
  sentence_variation : ℤ := 0
  decisive_language : ℤ := 0
  first_person_experience : ℤ := 0
  personality_moments_found : List Moment := []
  personality_per_min : ℚ := 0
  sentence_cv : Option ℚ := none
  decisive_count : ℕ := 0
  hedging_count : ℕ := 0
  decisive_ratio : ℚ := 0
  first_person_count : ℕ := 0
  generic_count : ℕ := 0
  first_person_ratio : ℚ := 0
  deriving DecidableEq, Repr, Inhabited

/-- The `rizz_details` payload of a scoring run. -/
structure RizzDetails where
  vocal : VocalResult
  copy : CopyResult
  vocal_available : Bool
  deriving DecidableEq, Repr, Inhabited

/-- The dict returned by `score_rizz`. -/
structure RizzResult where
  rizz_score : ℚ
  rizz_vocal_score : ℚ
  rizz_copy_score : ℚ
  rizz_details : RizzDetails
  deriving DecidableEq, Repr, Inhabited

/-- Modelled from the spec: the `ScriptScore` aggregate (spec §3) imported
from `app.models` but absent from that module.  Fields the pipeline may
leave unset are `Option`s defaulting to `none` ("the final record simply
has a null/partial field for that component", spec §4.5); `scored_at` is
kept as its ISO timestamp string. -/
structure ScriptScore where
  video_id : String
  scored_at : String
  scoring_version : String
  gate_results : List GateCheckResult := []
  all_gates_passed : Bool := false
  quality_score_total : Option ℚ := none
  specificity_score : Option ℚ := none
  conversion_arch_score : Option ℚ := none
  retention_arch_score : Option ℚ := none
  authenticity_score : Option ℚ := none
  viewer_respect_score : Option ℚ := none
  production_score : Option ℚ := none
  dimension_details : List (String × DimData) := []
  action_items : List ActionItem := []
  keyword_tier : Option String := none
  domination_score : Option ℚ := none
  context_multiplier : ℚ := 1
  quality_floor : ℚ := 60
  multiplied_score : Option ℚ := none
  passes_quality_floor : Option Bool := none
  rizz_score : Option ℚ := none
  rizz_vocal_score : Option ℚ := none
  rizz_copy_score : Option ℚ := none
  rizz_details : Option RizzDetails := none
  deriving DecidableEq, Repr, Inhabited

/-- Video context row.  Modelled from the spec (§6
`get_video_context(video_id) -> {silo, main_keyword, domination_score,
avg_domination_score}`): the BigQuery method is absent from
`bigquery_service.py`; the scoring service reads the keys `silo`,
`main_keyword`, `latest_domination_score` and `avg_domination_score`
(the spec field `domination_score` is the `latest_domination_score` key here).
An absent silo/keyword is the empty string (the `context.get` default). -/
structure VideoContext where
  silo : String := ""
  main_keyword : String := ""
  latest_domination_score : Option ℚ := none
  avg_domination_score : Option ℚ := none
  deriving DecidableEq, Repr, Inhabited

/-- An `approved_brands` row (`local_db.get_approved_brand_for_silo`). -/
structure ApprovedBrand where
  primary_brand : String
  secondary_brand : Option String := none
  deriving DecidableEq, Repr, Inhabited

/-- A `partner_list` row (only `brand_name` is read). -/
structure Partner where
  brand_name : String
  deriving DecidableEq, Repr, Inhabited

/-- A sibling-video row.  Modelled from the spec (§6
`get_sibling_transcripts(video_id, keyword, limit)`): the BigQuery method
`get_sibling_video_ids` is absent from `bigquery_service.py`; the scoring
service reads `video_id` and `video_title`. -/
structure Sibling where
  video_id : String
  video_title : String
  deriving DecidableEq, Repr, Inhabited

/-- An affiliate-performance row (only `total_revenue` is read). -/
structure AffiliatePerformance where
  total_revenue : ℚ := 0
  deriving DecidableEq, Repr, Inhabited

/-- A `video_transcripts` row as read in the rizz layer. -/
structure TranscriptData where
  emotions : Option EmotionsData := none
  duration_seconds : Option ℚ := none
  deriving DecidableEq, Repr, Inhabited

/-- Exceptions that can cross component boundaries. -/
inductive PyError where
  /-- An LLM / data-provider network or auth failure, or an unparseable
  LLM response (spec §7 `ExternalCallError`, absorbing `ParseError`). -/
  | externalCall (msg : String)
  /-- A genuine video/transcript-not-found precondition failure. -/
  | notFound (msg : String)
  deriving DecidableEq, Repr, Inhabited

/-- Is the error a video/transcript-not-found failure? -/
def PyError.isNotFound : PyError → Bool
  | .notFound _ => true
  | .externalCall _ => false

/-- The collaborators of the scoring service (spec §6), injected as data.
Calls whose Python implementation catches its own exceptions are total;
calls the source lets raise are `Except PyError`. -/
structure Env where
  /-- Value of `datetime.now().isoformat()` at the start of the run. -/
  now : String := "2026-01-01T00:00:00"
  /-- Field `prompt_version` of the service (`scoring_version` of the record). -/
  prompt_version : String := "1.0"
  /-- Call `bigquery.get_video_context` (may raise; `_get_video_context` catches). -/
  getVideoContext : String → Except PyError VideoContext := fun _ => .ok {}
  /-- Call `local_db.get_approved_brand_for_silo` (catches internally). -/
  getApprovedBrandForSilo : String → Option ApprovedBrand := fun _ => none
  /-- Call `local_db.get_partner_list(active_only=True)` (catches internally). -/
  getPartnerList : List Partner := []
  /-- Call `bigquery.get_sibling_video_ids(video_id, keyword, limit)` (may raise). -/
  getSiblingVideoIds : String → String → ℕ → Except PyError (List Sibling) :=
    fun _ _ _ => .ok []
  /-- Call `bigquery.get_transcript` (no internal handler; may raise). -/
  bqGetTranscript : String → Except PyError (Option String) := fun _ => .ok none
  /-- Call `local_db.get_transcript` (called inside the rizz `try`). -/
  localGetTranscript : String → Except PyError (Option TranscriptData) :=
    fun _ => .ok none
  /-- Call `bigquery.get_affiliate_performance` (`_check_revenue_exists` catches). -/
  getAffiliatePerformance : String → Except PyError (List AffiliatePerformance) :=
    fun _ => .ok []
  /-- The AI-gate LLM call, already parsed; `.error` = raise or unparseable. -/
  aiGateLLM : Except PyError AiGateResponse := .error (.externalCall "down")
  /-- The quality-scoring LLM call, already parsed. -/
  qualityLLM : Except PyError QualityData := .error (.externalCall "down")
  /-- The personality-density LLM call, already parsed. -/
  personalityLLM : Except PyError PersonalityData := .error (.externalCall "down")

/-! ## Phrase tables of the rizz scorer (module constants of the source) -/

/-- Table `FILLER_PATTERNS` minus the special `like` pattern (counted separately;
the total is order-independent). -/
def FILLER_PLAIN : List String :=
  ["um", "uh", "kinda", "sorta", "i guess", "you know", "kind of",
   "sort of", "basically"]

/-- Table `DECISIVE_PHRASES` of the source. -/
def DECISIVE_PHRASES : List String :=
  ["this is the one", "hands down", "i recommend", "my top pick",
   "the clear winner", "without a doubt", "definitely go with",
   "by far the best", "you need this", "you should get", "just get",
   "don\x27t hesitate", "best option", "no question", "grab this",
   "i\x27d pick", "i\x27d go with", "my choice"]

/-- Table `HEDGING_PHRASES` of the source. -/
def HEDGING_PHRASES : List String :=
  ["it depends", "you might", "could be", "maybe", "perhaps",
   "i\x27m not sure", "it\x27s hard to say", "some people might",
   "if you want", "it\x27s up to you", "there\x27s no clear winner",
   "both are good"]

/-- Table `FIRST_PERSON_EXPERIENCE` of the source. -/
def FIRST_PERSON_EXPERIENCE : List String :=
  ["i tested", "i tried", "in my experience", "i found", "i noticed",
   "i\x27ve been using", "i used", "personally", "my testing",
   "i measured", "i compared", "i ran", "i set up", "i installed",
   "after using"]

/-- Table `GENERIC_PRODUCT_PHRASES` of the source. -/
def GENERIC_PRODUCT_PHRASES : List String :=
  ["this product features", "users can expect", "the product offers",
   "it comes with", "the manufacturer claims", "according to the specs",
   "the brand says", "the company states"]

/-- Value `filler_count`: total `re.findall` count of all `FILLER_PATTERNS` over
the lowered transcript. -/
def fillerCount (textLower : List Char) : ℕ :=
  phraseCount textLower FILLER_PLAIN + countLike textLower

/-! ## Layer 1: gate checks -/

/-- Embeds `_check_brand_alignment` (deterministic gate 1). -/
def check_brand_alignment (env : Env) (_video_id transcript description : String)
    (context : VideoContext) : GateCheckResult :=
  if context.silo = "" then
    { gate_name := "Brand Alignment", passed := true,
      failure_reason := "No silo assigned — skipped" }
  else
    match env.getApprovedBrandForSilo context.silo with
    | none =>
      { gate_name := "Brand Alignment", passed := true,
        failure_reason := "No approved brand defined for this silo — skipped" }
    | some approved =>
      let primary_brand := pyLower approved.primary_brand
      let secondary_brand := pyLower (approved.secondary_brand.getD "")
      let combined_text := pyLower (transcript ++ " " ++ description)
      let has_primary := strContains combined_text primary_brand
      let has_secondary :=
        if secondary_brand ≠ "" then strContains combined_text secondary_brand
        else false
      if has_primary then
        { gate_name := "Brand Alignment", passed := true }
      else if has_secondary then
        { gate_name := "Brand Alignment", passed := true,
          failure_reason := "Using secondary brand (" ++ approved.secondary_brand.getD ""
            ++ "), not primary (" ++ approved.primary_brand ++ ")" }
      else
        { gate_name := "Brand Alignment", passed := false,
          failure_reason := "Approved brand for " ++ context.silo ++ " silo is "
            ++ approved.primary_brand
            ++ ", but it was not found in the transcript or description" }

/-- The significant keyword words of the SEO gate: words of the lowered
keyword with at least 3 characters. -/
def seoKeywordWords (keyword_lower : String) : List (List Char) :=
  (wordsOf keyword_lower.data).filter (fun w => 3 ≤ w.length)

/-- How many significant keyword words occur (as substrings) in the title. -/
def seoMatches (title_lower : String) (keyword_lower : String) : ℕ :=
  (seoKeywordWords keyword_lower).filter (fun w => infixOf w title_lower.data)
    |>.length

/-- Embeds `_check_seo_title` (deterministic gate 2). -/
def check_seo_title (title : String) (context : VideoContext) : GateCheckResult :=
  let keyword := context.main_keyword
  if keyword = "" then
    { gate_name := "SEO Title Compliance", passed := true,
      failure_reason := "No target keyword assigned — skipped" }
  else
    let title_lower := pyLower title
    let keyword_lower := pyLower keyword
    if strContains title_lower keyword_lower then
      { gate_name := "SEO Title Compliance", passed := true }
    else
      let keyword_words := seoKeywordWords keyword_lower
      let n_matches := seoMatches title_lower keyword_lower
      if keyword_words ≠ [] ∧ (keyword_words.length : ℚ) * 0.6 ≤ (n_matches : ℚ) then
        { gate_name := "SEO Title Compliance", passed := true,
          failure_reason := "Partial keyword match (" ++ toString n_matches ++ "/"
            ++ toString keyword_words.length ++ " words)" }
      else
        { gate_name := "SEO Title Compliance", passed := false,
          failure_reason := "Target keyword \x27" ++ keyword
            ++ "\x27 not found in title \x27" ++ title ++ "\x27" }

/-- The four fail-open results returned when the AI-gate LLM call raises or
its response is unparseable. -/
def aiGateFailOpen : List GateCheckResult :=
  [{ gate_name := "Partner Safety", passed := true,
     failure_reason := "Gate check unavailable — API error" },
   { gate_name := "Cross-Video Coherence", passed := true,
     failure_reason := "Gate check unavailable — API error" },
   { gate_name := "Funnel Match", passed := true,
     failure_reason := "Gate check unavailable — API error" },
   { gate_name := "Factual Accuracy", passed := true,
     failure_reason := "Gate check unavailable — API error" }]

/-- One gate result from the parsed AI response
(`data.get(key, ...)` then the `passed`/`failure_reason` defaults). -/
def gateFromData (gate_name : String) (gd : Option GateData) : GateCheckResult :=
  let g := gd.getD {}
  { gate_name := gate_name, passed := g.passed.getD true,
    failure_reason := g.failure_reason.getD "" }

/-- The sibling-summary fragment contributed by one sibling video:
`bigquery.get_transcript` (which may raise) then a truncated block if the
transcript is non-empty. -/
def siblingBlock (env : Env) (sib : Sibling) : Except PyError String :=
  match env.bqGetTranscript sib.video_id with
  | .error e => .error e
  | .ok none => .ok ""
  | .ok (some t) =>
    if t = "" then .ok ""
    else .ok ("\n--- Video: " ++ sib.video_title ++ " ---\n" ++ ⟨t.data.take 2000⟩ ++ "\n")

/-- The accumulated sibling summaries (the `for sib in siblings` loop). -/
def gatherSiblings (env : Env) : List Sibling → Except PyError String
  | [] => .ok ""
  | sib :: rest =>
    match siblingBlock env sib with
    | .error e => .error e
    | .ok block =>
      match gatherSiblings env rest with
      | .error e => .error e
      | .ok more => .ok (block ++ more)

/-- The sibling-summary gathering of `_run_ai_gate_checks` (performed
*before* the `try` that implements the fail-open policy, so a failure here
propagates). -/
def ai_gate_sibling_summaries (env : Env) (video_id keyword : String) :
    Except PyError String :=
  if keyword ≠ "" then
    match env.getSiblingVideoIds video_id keyword 3 with
    | .error e => .error e
    | .ok siblings => gatherSiblings env siblings
  else .ok ""

/-- Embeds `_run_ai_gate_checks` (gates 3–6).  The partner list and the sibling
summaries are gathered *before* the `try` that implements the fail-open
policy, so a failure there propagates; once the LLM call is reached, any
raise or parse failure yields the four fail-open results. -/
def run_ai_gate_checks (env : Env) (video_id _transcript _title : String)
    (context : VideoContext) : Except PyError (List GateCheckResult) :=
  let _partner_names := env.getPartnerList.map Partner.brand_name
  match ai_gate_sibling_summaries env video_id context.main_keyword with
  | .error e => .error e
  | .ok _sibling_summaries =>
    match env.aiGateLLM with
    | .ok data =>
      .ok [gateFromData "Partner Safety" data.partner_safety,
           gateFromData "Cross-Video Coherence" data.cross_video_coherence,
           gateFromData "Funnel Match" data.funnel_match,
           gateFromData "Factual Accuracy" data.factual_accuracy]
    | .error _ => .ok aiGateFailOpen

/-- Embeds `run_gate_checks`: all 6 gates. -/
def run_gate_checks (env : Env) (video_id transcript title description : String)
    (context : VideoContext) : Except PyError (List GateCheckResult) :=
  let g1 := check_brand_alignment env video_id transcript description context
  let g2 := check_seo_title title context
  match run_ai_gate_checks env video_id transcript title context with
  | .error e => .error e
  | .ok ai_gates => .ok ([g1, g2] ++ ai_gates)

/-! ## Layer 2: quality score -/

/-- Reads one dimension total: `data.get(<dimension>, ...).get(total, 0)`. -/
def dimTotal (d : Option DimData) : ℚ := (d.getD {}).total.getD 0

/-- The parse-and-validate tail of `score_quality`, applied to the parsed
LLM response: extract the dimension totals, then recompute the grand total
when the reported one deviates from the dimension sum by more than 1. -/
def quality_result_of_data (data : QualityData) : QualityResult :=
  let specificity_score := dimTotal data.specificity_proof_density
  let conversion_arch_score := dimTotal data.conversion_architecture
  let retention_arch_score := dimTotal data.retention_architecture
  let authenticity_score := dimTotal data.authenticity_voice
  let viewer_respect_score := dimTotal data.viewer_sophistication
  let production_score := dimTotal data.production_standards
  let reported := data.quality_score_total.getD 0
  let expected_total := specificity_score + conversion_arch_score
    + retention_arch_score + authenticity_score + viewer_respect_score
    + production_score
  let quality_score_total :=
    if 1 < |reported - expected_total| then pyRound1 expected_total else reported
  { quality_score_total := quality_score_total,
    specificity_score := specificity_score,
    conversion_arch_score := conversion_arch_score,
    retention_arch_score := retention_arch_score,
    authenticity_score := authenticity_score,
    viewer_respect_score := viewer_respect_score,
    production_score := production_score,
    dimension_details :=
      [("specificity_proof_density", data.specificity_proof_density.getD {}),
       ("conversion_architecture", data.conversion_architecture.getD {}),
       ("retention_architecture", data.retention_architecture.getD {}),
       ("authenticity_voice", data.authenticity_voice.getD {}),
       ("viewer_sophistication", data.viewer_sophistication.getD {}),
       ("production_standards", data.production_standards.getD {})],
    action_items := data.top_3_action_items }

/-- Embeds `score_quality`: returns `none` on LLM failure or unparseable response
(the transcript/title/description/duration arguments only shape the prompt,
which the response held by the environment already reflects). -/
def score_quality (env : Env) : Option QualityResult :=
  match env.qualityLLM with
  | .ok data => some (quality_result_of_data data)
  | .error _ => none

/-- The dimension-total sum of a quality result. -/
def qualityDimSum (r : QualityResult) : ℚ :=
  r.specificity_score + r.conversion_arch_score + r.retention_arch_score
    + r.authenticity_score + r.viewer_respect_score + r.production_score

/-! ## Layer 3: context multiplier -/

/-- Table `MULTIPLIER_TABLE`: `(multiplier, quality_floor)` per bucket. -/
def MULTIPLIER_TABLE : List (String × (ℚ × ℚ)) :=
  [("tier1_low_dom", (1.5, 80)),
   ("tier1_high_dom", (1.0, 70)),
   ("tier2_proven", (1.2, 70)),
   ("tier2_unproven", (0.8, 60)),
   ("ai_skeleton", (0.5, 50))]

/-- The result dict of `compute_context_multiplier`. -/
structure MultiplierResult where
  keyword_tier : String
  domination_score : Option ℚ
  avg_domination_score : Option ℚ
  multiplier : ℚ
  quality_floor : ℚ
  bucket : String
  deriving DecidableEq, Repr, Inhabited

/-- Embeds `_check_revenue_exists` (catches internally, returns `False` on error). -/
def check_revenue_exists (env : Env) (video_id : String) : Bool :=
  match env.getAffiliatePerformance video_id with
  | .ok perf => perf.any (fun p => decide (0 < p.total_revenue))
  | .error _ => false

/-- Embeds `compute_context_multiplier`: the deterministic decision table. -/
def compute_context_multiplier (env : Env) (video_id : String)
    (context : VideoContext) : MultiplierResult :=
  let silo := context.silo
  let latest_dom := context.latest_domination_score
  let avg_dom := context.avg_domination_score
  let approved := if silo ≠ "" then env.getApprovedBrandForSilo silo else none
  let keyword_tier :=
    if silo = "" then "ai_skeleton"
    else if approved.isSome then "tier1"
    else "tier2"
  let domination_pct := latest_dom
  let bucket :=
    if keyword_tier = "ai_skeleton" then "ai_skeleton"
    else if keyword_tier = "tier1" then
      match domination_pct with
      | some d => if 90 ≤ d then "tier1_high_dom" else "tier1_low_dom"
      | none => "tier1_low_dom"
    else
      if check_revenue_exists env video_id then "tier2_proven" else "tier2_unproven"
  -- `MULTIPLIER_TABLE[bucket]`: the bucket is always a key of the table
  -- (see the C2 theorem), so the lookup default is unreachable.
  let mf := (MULTIPLIER_TABLE.lookup bucket).getD (1, 60)
  { keyword_tier := keyword_tier,
    domination_score := domination_pct,
    avg_domination_score := avg_dom,
    multiplier := mf.1,
    quality_floor := mf.2,
    bucket := bucket }

/-! ## Layer 4: rizz score -/

/-- The confidence emotions of the vocal scorer. -/
def CONFIDENCE_EMOTIONS : List String := ["Determination", "Concentration", "Interest"]

/-- The filler-density curve (pre-clamp): sweet spot 1–3 fillers/minute.
The `fillers_per_min < 1` branch of the source assigns
`max(10, round(fillers_per_min * 10))` and immediately overwrites it with
`10`, so its net value is `10`. -/
def fillerScoreOf (fillers_per_min : ℚ) : ℤ :=
  if 1 ≤ fillers_per_min ∧ fillers_per_min ≤ 3 then 20
  else if fillers_per_min < 1 then 10
  else if fillers_per_min ≤ 5 then max 5 (pyRoundZ (20 - (fillers_per_min - 3) * 7.5))
  else max 2 (pyRoundZ (5 - (fillers_per_min - 5)))

/-- The conviction curve: mean confidence mapped from [0, 0.5] to [0, 20]. -/
def convictionOf (avg_confidence : ℚ) : ℤ :=
  min 20 (pyRoundZ (avg_confidence / 0.5 * 20))

/-- The conviction-consistency curve over the confidence standard deviation
(including the final clamp of the source). -/
def consistencyOf (std_dev : ℚ) : ℤ :=
  let consistency_score : ℤ :=
    if 0.06 ≤ std_dev ∧ std_dev ≤ 0.14 then 20
    else if std_dev < 0.06 then pyRoundZ (std_dev / 0.06 * 20)
    else max 0 (pyRoundZ (20 - (std_dev - 0.14) * 100))
  min 20 (max 0 consistency_score)

/-- The CTA conviction-delta curve. -/
def ctaDeltaScoreOf (delta : ℚ) : ℤ :=
  if 0 ≤ delta then min 20 (pyRoundZ (delta / 0.10 * 20))
  else max 0 (pyRoundZ (10 + delta / 0.05 * 10))

/-- The pacing curve over the coefficient of variation of chunk sizes. -/
def pacingScoreOfCv (cv : ℚ) : ℤ :=
  if 0.15 ≤ cv ∧ cv ≤ 0.35 then 20
  else if cv < 0.15 then max 5 (pyRoundZ (cv / 0.15 * 20))
  else max 5 (pyRoundZ (20 - (cv - 0.35) * 30))

/-- Embeds `_compute_pacing_variation` (the `duration_seconds` parameter is unused
in the source as well). -/
def compute_pacing_variation (transcript : String) (_duration_seconds : ℚ) : ℤ :=
  let words := wordsOf transcript.data
  if words.length < 50 then 10
  else
    let chunk_size := max (words.length / 10) 10
    let chunks := chunksOf chunk_size words
    if chunks.length < 3 then 10
    else
      let wpcs : List ℚ := chunks.map (fun c => (c.length : ℚ))
      let mean_wpc := pyMean wpcs
      if mean_wpc = 0 then 10
      else
        let cv := if 1 < wpcs.length then pyStdev wpcs / mean_wpc else 0
        pacingScoreOfCv cv

/-- The per-segment summed confidence scores
(`Determination + Concentration + Interest` of the top list of each segment). -/
def confidencePerSegment (segs : List EmotionSegment) : List ℚ :=
  segs.map (fun seg =>
    ((seg.top_emotions.filter
        (fun e => CONFIDENCE_EMOTIONS.contains e.emotion)).map
      EmotionEntry.score).sum)

/-- Embeds `_score_rizz_vocal`. -/
def score_rizz_vocal (emotions_data : Option EmotionsData) (transcript : String)
    (duration_seconds : ℚ) : VocalResult :=
  let duration_minutes : Option ℚ :=
    if duration_seconds ≠ 0 then some (max (duration_seconds / 60) 1) else none
  let filler_count := fillerCount (pyLower transcript).data
  let fillers_per_min : ℚ :=
    match duration_minutes with
    | some m => (filler_count : ℚ) / m
    | none =>
      let word_count := pyWordCount transcript
      let est_minutes := max ((word_count : ℚ) / 150) 1
      (filler_count : ℚ) / est_minutes
  let filler_density_score := min 20 (max 0 (fillerScoreOf fillers_per_min))
  let pacing_variation_score := compute_pacing_variation transcript duration_seconds
  let base : VocalResult :=
    { available := false, total_raw := 0,
      filler_density_score := filler_density_score,
      pacing_variation_score := pacing_variation_score,
      filler_count := filler_count,
      fillers_per_min := pyRound2 fillers_per_min }
  let degraded_total : ℚ :=
    pyRound1 (((filler_density_score + pacing_variation_score : ℤ) : ℚ) / 40 * 100)
  let degraded_note := "Vocal analysis partial — no Hume emotion data available"
  match emotions_data with
  | none => { base with total_raw := degraded_total, note := some degraded_note }
  | some ed =>
    if ed.segments.isEmpty then
      { base with total_raw := degraded_total, note := some degraded_note }
    else
      let confidence_per_segment : List ℚ := confidencePerSegment ed.segments
      if confidence_per_segment.isEmpty then
        { base with available := true, total_raw := degraded_total }
      else
        let avg_confidence := pyMean confidence_per_segment
        let conviction_score := convictionOf avg_confidence
        let std_dev : ℚ :=
          if 1 < confidence_per_segment.length then pyStdev confidence_per_segment
          else 0
        let conviction_consistency : ℤ :=
          if 1 < confidence_per_segment.length then consistencyOf std_dev else 10
        let total_segs := confidence_per_segment.length
        let last_20pct_idx := max 1 (⌊(total_segs : ℚ) * 0.8⌋).toNat
        let cta_tail := confidence_per_segment.drop last_20pct_idx
        let cta_avg := if cta_tail.isEmpty then avg_confidence else pyMean cta_tail
        let delta := cta_avg - avg_confidence
        let cta_conviction_delta := ctaDeltaScoreOf delta
        { base with
          available := true,
          conviction_score := conviction_score,
          avg_confidence := some (pyRound4 avg_confidence),
          conviction_consistency := conviction_consistency,
          confidence_std_dev := some (pyRound4 std_dev),
          cta_conviction_delta := cta_conviction_delta,
          cta_delta := some (pyRound4 delta),
          cta_avg_confidence := some (pyRound4 cta_avg),
          total_raw := ((min 100 (conviction_score + conviction_consistency
            + cta_conviction_delta + filler_density_score
            + pacing_variation_score) : ℤ) : ℚ) }

/-- The personality-density curve: moments per minute mapped to 0–25. -/
def personalityScoreOf (per_minute : ℚ) : ℤ :=
  if 0.5 ≤ per_minute then 25
  else if 0.3 ≤ per_minute then 20
  else if 0.2 ≤ per_minute then 15
  else if 0.1 ≤ per_minute then 10
  else max 3 (pyRoundZ (per_minute / 0.1 * 10))

/-- Embeds `_score_personality_density`: one LLM call; any raise or parse failure
yields the fixed fallback record (score 10, no moments). -/
def score_personality_density (env : Env) (_transcript : String)
    (duration_minutes : ℚ) : PersonalityResult :=
  match env.personalityLLM with
  | .ok data =>
    let total := data.total_count
    let per_minute := if 0 < duration_minutes then total / duration_minutes else 0
    { score := min 25 (personalityScoreOf per_minute),
      moments := data.moments.take 5,
      total_count := total,
      per_minute := pyRound2 per_minute }
  | .error _ => { score := 10, moments := [], total_count := 0, per_minute := 0 }

/-- The sentence-length-variation curve. -/
def sentenceVariationOf (cv : ℚ) : ℤ :=
  if 0.4 ≤ cv ∧ cv ≤ 0.7 then 25
  else if cv < 0.2 then 5
  else if cv < 0.4 then pyRoundZ (5 + (cv - 0.2) / 0.2 * 20)
  else max 10 (pyRoundZ (25 - (cv - 0.7) * 25))

/-- The decisive-language curve over the decisive/hedging ratio. -/
def decisiveScoreOf (ratio : ℚ) : ℤ :=
  if 3 ≤ ratio then 25
  else if 2 ≤ ratio then 20
  else if 1 ≤ ratio then 15
  else if 0.5 ≤ ratio then 10
  else max 3 (pyRoundZ (ratio * 20))

/-- The first-person-experience curve over the first-person/generic ratio. -/
def firstPersonScoreOf (fp_ratio : ℚ) : ℤ :=
  if 2 ≤ fp_ratio then 25
  else if 1.5 ≤ fp_ratio then 20
  else if 1 ≤ fp_ratio then 15
  else if 0.5 ≤ fp_ratio then 10
  else max 3 (pyRoundZ (fp_ratio * 20))

/-- Sentence splitting: `re.split` on the class [.!?] then strip/length filtering, as in the
sentence-variation sub-metric (collapsed delimiter runs only add empty
fragments, which the filter drops either way). -/
def sentencesOf (transcript : String) : List (List Char) :=
  ((splitPred (fun c => c == '.' || c == '!' || c == '?') transcript.data).map
    pyStrip).filter (fun s => !s.isEmpty && decide (2 ≤ (wordsOf s).length))

/-- Embeds `_score_rizz_copy`. -/
def score_rizz_copy (env : Env) (_video_id transcript : String)
    (duration_seconds : ℚ) : CopyResult :=
  let duration_minutes : ℚ :=
    if duration_seconds ≠ 0 then max (duration_seconds / 60) 1
    else max ((pyWordCount transcript : ℚ) / 150) 1
  let personality_result := score_personality_density env transcript duration_minutes
  let sentences := sentencesOf transcript
  let sentence_pair : ℤ × Option ℚ :=
    if 5 ≤ sentences.length then
      let word_counts : List ℚ := sentences.map (fun s => ((wordsOf s).length : ℚ))
      let mean_wc := pyMean word_counts
      if 0 < mean_wc ∧ 1 < word_counts.length then
        let cv := pyStdev word_counts / mean_wc
        (min 25 (max 0 (sentenceVariationOf cv)), some (pyRoundTo 3 cv))
      else (10, none)
    else (10, none)
  let transcript_lower := (pyLower transcript).data
  let decisive_count := phraseCount transcript_lower DECISIVE_PHRASES
  let hedging_count := phraseCount transcript_lower HEDGING_PHRASES
  let ratio : ℚ :=
    if hedging_count = 0 then
      (if 0 < decisive_count then (decisive_count : ℚ) else 0)
    else (decisive_count : ℚ) / (hedging_count : ℚ)
  let decisive_language := min 25 (decisiveScoreOf ratio)
  let first_person_count := phraseCount transcript_lower FIRST_PERSON_EXPERIENCE
  let generic_count := phraseCount transcript_lower GENERIC_PRODUCT_PHRASES
  let fp_ratio : ℚ :=
    if generic_count = 0 then
      (if 0 < first_person_count then (first_person_count : ℚ) else 0)
    else (first_person_count : ℚ) / (generic_count : ℚ)
  let first_person_experience := min 25 (firstPersonScoreOf fp_ratio)
  let personality_density := personality_result.score
  let sentence_variation := sentence_pair.1
  { total_raw := min 100 (personality_density + sentence_variation
      + decisive_language + first_person_experience),
    personality_density := personality_density,
    sentence_variation := sentence_variation,
    decisive_language := decisive_language,
    first_person_experience := first_person_experience,
    personality_moments_found := personality_result.moments,
    personality_per_min := personality_result.per_minute,
    sentence_cv := sentence_pair.2,
    decisive_count := decisive_count,
    hedging_count := hedging_count,
    decisive_ratio := pyRound2 ratio,
    first_person_count := first_person_count,
    generic_count := generic_count,
    first_person_ratio := pyRound2 fp_ratio }

/-- Embeds `score_rizz`: 60% vocal + 40% copy. -/
def score_rizz (env : Env) (video_id transcript : String)
    (emotions_data : Option EmotionsData) (duration_seconds : ℚ) : RizzResult :=
  let vocal_result := score_rizz_vocal emotions_data transcript duration_seconds
  let copy_result := score_rizz_copy env video_id transcript duration_seconds
  let vocal_raw := vocal_result.total_raw
  let copy_raw : ℚ := (copy_result.total_raw : ℚ)
  let vocal_weighted := pyRound1 (vocal_raw * 0.60)
  let copy_weighted := pyRound1 (copy_raw * 0.40)
  let rizz_score := pyRound1 (vocal_weighted + copy_weighted)
  { rizz_score := rizz_score,
    rizz_vocal_score := vocal_weighted,
    rizz_copy_score := copy_weighted,
    rizz_details :=
      { vocal := vocal_result, copy := copy_result,
        vocal_available := vocal_result.available } }

/-! ## Orchestrator -/

/-- Embeds `_get_video_context` (catches, returning the empty context). -/
def get_video_context_caught (env : Env) (video_id : String) : VideoContext :=
  match env.getVideoContext video_id with
  | .ok c => c
  | .error _ => {}

/-- The body of the Layer-4 `try` block of `score_video`: fetch the stored
transcript row (emotions and a duration fallback), then score rizz.  Only
the `local_db.get_transcript` call can raise; `score_rizz` is total. -/
def rizz_attempt (env : Env) (video_id transcript : String)
    (duration_seconds : ℚ) : Except PyError RizzResult :=
  match env.localGetTranscript video_id with
  | .error e => .error e
  | .ok transcript_data =>
    let emotions_data := transcript_data.bind TranscriptData.emotions
    let duration2 :=
      if duration_seconds = 0 then
        match transcript_data with
        | some td => td.duration_seconds.getD 0
        | none => duration_seconds
      else duration_seconds
    .ok (score_rizz env video_id transcript emotions_data duration2)

/-- Embeds `score_video`: the full pipeline for one video. -/
def score_video (env : Env) (video_id transcript title description : String)
    (duration_seconds : ℚ) : Except PyError ScriptScore :=
  let context := get_video_context_caught env video_id
  match run_gate_checks env video_id transcript title description context with
  | .error e => .error e
  | .ok gate_results =>
    let s0 : ScriptScore :=
      { video_id := video_id, scored_at := env.now,
        scoring_version := env.prompt_version,
        gate_results := gate_results,
        all_gates_passed := gate_results.all (fun g => g.passed) }
    let s1 :=
      match score_quality env with
      | some q =>
        { s0 with
          quality_score_total := some q.quality_score_total,
          specificity_score := some q.specificity_score,
          conversion_arch_score := some q.conversion_arch_score,
          retention_arch_score := some q.retention_arch_score,
          authenticity_score := some q.authenticity_score,
          viewer_respect_score := some q.viewer_respect_score,
          production_score := some q.production_score,
          dimension_details := q.dimension_details,
          action_items := q.action_items }
      | none => s0
    let m := compute_context_multiplier env video_id context
    let s2 :=
      { s1 with
        keyword_tier := some m.keyword_tier,
        domination_score := m.domination_score,
        context_multiplier := m.multiplier,
        quality_floor := m.quality_floor }
    let s3 :=
      match s2.quality_score_total with
      | some q =>
        { s2 with
          multiplied_score := some (pyRound1 (q * s2.context_multiplier)),
          passes_quality_floor := some (decide (s2.quality_floor ≤ q)) }
      | none => s2
    let s4 :=
      match rizz_attempt env video_id transcript duration_seconds with
      | .ok r =>
        { s3 with
          rizz_score := some r.rizz_score,
          rizz_vocal_score := some r.rizz_vocal_score,
          rizz_copy_score := some r.rizz_copy_score,
          rizz_details := some r.rizz_details }
      | .error _ => s3
    .ok s4

/-! ## Persistence: `store_script_score` -/

/-- A `script_scores` row as written by `store_script_score` (JSON columns
modelled by the structured values they serialize). -/
structure ScriptScoreRow where
  video_id : String
  scored_at : String
  scoring_version : String
  gates : List GateCheckResult
  gates_passed : ℕ
  gates_total : ℕ
  all_gates_passed : Bool
  quality_score_total : Option ℚ
  specificity_score : Option ℚ
  conversion_arch_score : Option ℚ
  retention_arch_score : Option ℚ
  authenticity_score : Option ℚ
  viewer_respect_score : Option ℚ
  production_score : Option ℚ
  dimension_details : List (String × DimData)
  keyword_tier : Option String
  domination_score : Option ℚ
  context_multiplier : ℚ
  multiplied_score : Option ℚ
  quality_floor : ℚ
  passes_quality_floor : Bool
  action_items : List ActionItem
  rizz_score : Option ℚ
  rizz_vocal_score : Option ℚ
  rizz_copy_score : Option ℚ
  rizz_details : Option RizzDetails
  deriving DecidableEq, Repr, Inhabited

/-- The row written for a score (`1 if score.passes_quality_floor else 0`
stores a missing flag as false; likewise the gate aggregates). -/
def mkRow (score : ScriptScore) : ScriptScoreRow :=
  { video_id := score.video_id,
    scored_at := score.scored_at,
    scoring_version := score.scoring_version,
    gates := score.gate_results,
    gates_passed := (score.gate_results.filter (fun g => g.passed)).length,
    gates_total := score.gate_results.length,
    all_gates_passed := score.all_gates_passed,
    quality_score_total := score.quality_score_total,
    specificity_score := score.specificity_score,
    conversion_arch_score := score.conversion_arch_score,
    retention_arch_score := score.retention_arch_score,
    authenticity_score := score.authenticity_score,
    viewer_respect_score := score.viewer_respect_score,
    production_score := score.production_score,
    dimension_details := score.dimension_details,
    keyword_tier := score.keyword_tier,
    domination_score := score.domination_score,
    context_multiplier := score.context_multiplier,
    multiplied_score := score.multiplied_score,
    quality_floor := score.quality_floor,
    passes_quality_floor := score.passes_quality_floor.getD false,
    action_items := score.action_items,
    rizz_score := score.rizz_score,
    rizz_vocal_score := score.rizz_vocal_score,
    rizz_copy_score := score.rizz_copy_score,
    rizz_details := score.rizz_details }

/-- Does a row carry the `(video_id, scored_at)` key of this score? -/
def rowKeyMatches (score : ScriptScore) (r : ScriptScoreRow) : Bool :=
  r.video_id == score.video_id && r.scored_at == score.scored_at

/-- Embeds `store_script_score`: an upsert on the `(video_id, scored_at)` unique
key — `INSERT ... ON CONFLICT (video_id, scored_at) DO UPDATE SET ...` on
Postgres, `INSERT OR REPLACE` on SQLite; both replace the row holding the
conflicting key and leave every other row unchanged. -/
def store_script_score (table : List ScriptScoreRow) (score : ScriptScore) :
    List ScriptScoreRow :=
  let row := mkRow score
  if table.any (rowKeyMatches score) then
    table.map (fun r => if rowKeyMatches score r then row else r)
  else table ++ [row]

/-! ## Statement helpers and concrete demonstration inputs -/

/-- All reported quality numbers lie in the ranges the prompt documents
(total in 0–100; dimensions 25/20/20/15/10/10). -/
def qualityInRange (data : QualityData) : Prop :=
  0 ≤ data.quality_score_total.getD 0 ∧ data.quality_score_total.getD 0 ≤ 100
  ∧ 0 ≤ dimTotal data.specificity_proof_density
  ∧ dimTotal data.specificity_proof_density ≤ 25
  ∧ 0 ≤ dimTotal data.conversion_architecture
  ∧ dimTotal data.conversion_architecture ≤ 20
  ∧ 0 ≤ dimTotal data.retention_architecture
  ∧ dimTotal data.retention_architecture ≤ 20
  ∧ 0 ≤ dimTotal data.authenticity_voice
  ∧ dimTotal data.authenticity_voice ≤ 15
  ∧ 0 ≤ dimTotal data.viewer_sophistication
  ∧ dimTotal data.viewer_sophistication ≤ 10
  ∧ 0 ≤ dimTotal data.production_standards
  ∧ dimTotal data.production_standards ≤ 10

/-- Every emotion score of the payload is nonnegative. -/
def NonnegEmotions : Option EmotionsData → Prop
  | none => True
  | some d => ∀ seg ∈ d.segments, ∀ em ∈ seg.top_emotions, 0 ≤ em.score

/-- The "no usable emotion data" test of the source
(`not emotions_data or not emotions_data.get(segments)`). -/
def noEmotionData : Option EmotionsData → Bool
  | none => true
  | some d => d.segments.isEmpty

/-- Quality response with an out-of-range dimension total whose reported
total is within 1 point of the dimension sum (so it is kept as reported). -/
def qdataOutOfRange : QualityData :=
  { quality_score_total := some (399/2),
    specificity_proof_density := some { total := some 200 } }

/-- Environment whose quality LLM call parses to `qdataOutOfRange`. -/
def envOutOfRange : Env := { qualityLLM := .ok qdataOutOfRange }

/-- A well-behaved quality response (all numbers in range) whose reported
total under-counts the dimension sum by more than 1 point. -/
def qdataDemo : QualityData :=
  { quality_score_total := some 70,
    specificity_proof_density := some { total := some 20 },
    conversion_architecture := some { total := some 15 },
    retention_architecture := some { total := some 15 },
    authenticity_voice := some { total := some 10 },
    viewer_sophistication := some { total := some 8 },
    production_standards := some { total := some 6 } }

/-- Environment in which the quality call succeeds with `qdataDemo` while
the `local_db.get_transcript` call of the rizz layer raises (and the AI-gate and
personality LLM calls fail, as in the `Env` defaults). -/
def envQualityDemo : Env :=
  { qualityLLM := .ok qdataDemo,
    localGetTranscript := fun _ => .error (.externalCall "local db unavailable") }

/-- Environment in which the warehouse fails while the AI-gate layer
gathers sibling transcripts: the video has a keyword, one sibling exists,
and `bigquery.get_transcript` raises. -/
def envSiblingDown : Env :=
  { getVideoContext := fun _ => .ok { main_keyword := "best router" },
    getSiblingVideoIds := fun _ _ _ =>
      .ok [{ video_id := "v2", video_title := "T2" }],
    bqGetTranscript := fun _ => .error (.externalCall "bigquery down") }

/-- Environment for the tier-1 multiplier witness. -/
def envTier1 : Env :=
  { getApprovedBrandForSilo := fun s =>
      if s == "router" then some { primary_brand := "eero" } else none }

/-- Context for the tier-1 multiplier witness. -/
def ctxTier1 : VideoContext :=
  { silo := "router", latest_domination_score := some 95 }

/-- Emotion data carrying a negative confidence score (the Hume scale is
nonnegative in practice, but nothing in the code enforces it). -/
def emoNegative : EmotionsData :=
  { segments :=
      [{ top_emotions := [{ emotion := "Determination", score := -100 }] },
       { top_emotions := [{ emotion := "Determination", score := -100 }] }] }

/-- A small nonnegative emotion payload (one segment). -/
def emoDemo : EmotionsData :=
  { segments := [{ top_emotions := [{ emotion := "Interest", score := 1/4 }] }] }

/-- A scoring record. -/
def scoreA : ScriptScore :=
  { video_id := "v", scored_at := "2026-01-01T00:00:00", scoring_version := "1.0" }

/-- Same `(video_id, scored_at)` key as `scoreA`, different content. -/
def scoreB : ScriptScore :=
  { video_id := "v", scored_at := "2026-01-01T00:00:00", scoring_version := "2.0" }

/-- A record with a fresh `(video_id, scored_at)` key. -/
def scoreC : ScriptScore :=
  { video_id := "w", scored_at := "2026-01-02T00:00:00", scoring_version := "1.0" }

/-- Rationals on the one-decimal grid (the closure of the set of Python
`round(x, 1)` outputs). -/
def TenthGrid (q : ℚ) : Prop := ∃ k : ℤ, q = (k : ℚ) / 10

/-! # Theorems -/

/-! ## Facts about the rounding helpers -/

theorem pyRoundZ_le {x : ℚ} {n : ℤ} (h : x < (n : ℚ) + 1 / 2) : pyRoundZ x ≤ n := by
  rw [pyRoundZ, round_eq, Int.floor_le_iff]
  linarith

theorem le_pyRoundZ {x : ℚ} {n : ℤ} (h : (n : ℚ) - 1 / 2 ≤ x) : n ≤ pyRoundZ x := by
  rw [pyRoundZ, round_eq, Int.le_floor]
  linarith

theorem pyRoundZ_nonneg {x : ℚ} (h : 0 ≤ x) : 0 ≤ pyRoundZ x :=
  le_pyRoundZ (by linarith)

theorem pyRoundZ_mono {x y : ℚ} (h : x ≤ y) : pyRoundZ x ≤ pyRoundZ y := by
  rw [pyRoundZ, pyRoundZ, round_eq, round_eq]
  exact Int.floor_le_floor (by linarith)

theorem pyRound1_def (x : ℚ) : pyRound1 x = ((round (x * 10) : ℤ) : ℚ) / 10 := by
  simp [pyRound1, pyRoundTo]

theorem tenthGrid_pyRound1 (x : ℚ) : TenthGrid (pyRound1 x) :=
  ⟨round (x * 10), by rw [pyRound1_def]⟩

theorem tenthGrid_intCast (n : ℤ) : TenthGrid ((n : ℚ)) :=
  ⟨10 * n, by push_cast; ring⟩

theorem tenthGrid_add {a b : ℚ} : TenthGrid a → TenthGrid b → TenthGrid (a + b) := by
  rintro ⟨k, rfl⟩ ⟨l, rfl⟩
  exact ⟨k + l, by push_cast; ring⟩

theorem pyRound1_eq_of_grid {q : ℚ} (h : TenthGrid q) : pyRound1 q = q := by
  obtain ⟨k, rfl⟩ := h
  rw [pyRound1_def]
  have h10 : ((k : ℚ) / 10) * 10 = (k : ℚ) := by ring
  rw [h10, round_intCast]

theorem pyRound1_add_grid {x t : ℚ} (h : TenthGrid t) :
    pyRound1 (x + t) = pyRound1 x + t := by
  obtain ⟨k, rfl⟩ := h
  rw [pyRound1_def, pyRound1_def]
  have h10 : (x + (k : ℚ) / 10) * 10 = x * 10 + (k : ℚ) := by ring
  rw [h10, round_add_int]
  push_cast
  ring

theorem abs_pyRound1_sub (x : ℚ) : |pyRound1 x - x| ≤ 1 / 20 := by
  rw [pyRound1_def]
  have h : ((round (x * 10) : ℤ) : ℚ) / 10 - x = -((x * 10 - (round (x * 10) : ℤ)) / 10) := by
    ring
  rw [h, abs_neg, abs_div]
  have h2 := abs_sub_round (x * 10)
  rw [show |(10 : ℚ)| = 10 from by norm_num]
  linarith [h2]

theorem pyRound1_mono {x y : ℚ} (h : x ≤ y) : pyRound1 x ≤ pyRound1 y := by
  rw [pyRound1_def, pyRound1_def]
  have h1 : round (x * 10) ≤ round (y * 10) := by
    rw [round_eq, round_eq]
    exact Int.floor_le_floor (by linarith)
  have h2 : ((round (x * 10) : ℤ) : ℚ) ≤ ((round (y * 10) : ℤ) : ℚ) := by
    exact_mod_cast h1
  linarith

theorem pyRound1_nonneg {x : ℚ} (h : 0 ≤ x) : 0 ≤ pyRound1 x := by
  have := pyRound1_mono h
  rwa [pyRound1_eq_of_grid ⟨0, by norm_num⟩] at this

theorem pyRound1_le_int {x : ℚ} {n : ℤ} (h : x ≤ (n : ℚ)) : pyRound1 x ≤ (n : ℚ) := by
  have := pyRound1_mono h
  rwa [pyRound1_eq_of_grid (tenthGrid_intCast n)] at this

theorem int_le_pyRound1 {x : ℚ} {n : ℤ} (h : (n : ℚ) ≤ x) : (n : ℚ) ≤ pyRound1 x := by
  have := pyRound1_mono h
  rwa [pyRound1_eq_of_grid (tenthGrid_intCast n)] at this

theorem ratSqrt_nonneg (x : ℚ) : 0 ≤ ratSqrt x := by
  rw [ratSqrt]
  split
  · exact le_refl 0
  · positivity

/-! ## C2: the context-multiplier decision table -/

/-- C2: `compute_context_multiplier` implements exactly the deterministic
decision table: no silo → `ai_skeleton` with `(0.5, 50)`; an approved-brand
silo → `tier1`, giving `(1.0, 70)` when `domination_score ≥ 90` and
`(1.5, 80)` otherwise (including a null domination score); any other silo →
`tier2`, giving `(1.2, 70)` with revenue history and `(0.8, 60)` without;
the multiplier is always one of `{0.5, 0.8, 1.0, 1.2, 1.5}`. -/
theorem C2_context_multiplier_table (env : Env) (video_id : String)
    (context : VideoContext) :
    let r := compute_context_multiplier env video_id context
    (context.silo = "" →
      r.keyword_tier = "ai_skeleton" ∧ r.multiplier = 0.5 ∧ r.quality_floor = 50)
    ∧ (context.silo ≠ "" → (env.getApprovedBrandForSilo context.silo).isSome →
        r.keyword_tier = "tier1"
        ∧ (∀ d, context.latest_domination_score = some d → 90 ≤ d →
            r.multiplier = 1.0 ∧ r.quality_floor = 70)
        ∧ (∀ d, context.latest_domination_score = some d → d < 90 →
            r.multiplier = 1.5 ∧ r.quality_floor = 80)
        ∧ (context.latest_domination_score = none →
            r.multiplier = 1.5 ∧ r.quality_floor = 80))
    ∧ (context.silo ≠ "" → env.getApprovedBrandForSilo context.silo = none →
        r.keyword_tier = "tier2"
        ∧ (check_revenue_exists env video_id = true →
            r.multiplier = 1.2 ∧ r.quality_floor = 70)
        ∧ (check_revenue_exists env video_id = false →
            r.multiplier = 0.8 ∧ r.quality_floor = 60))
    ∧ (r.multiplier = 0.5 ∨ r.multiplier = 0.8 ∨ r.multiplier = 1.0
        ∨ r.multiplier = 1.2 ∨ r.multiplier = 1.5) := by
  have t1 : MULTIPLIER_TABLE.lookup "ai_skeleton" = some (0.5, 50) := rfl
  have t2 : MULTIPLIER_TABLE.lookup "tier1_high_dom" = some (1.0, 70) := rfl
  have t3 : MULTIPLIER_TABLE.lookup "tier1_low_dom" = some (1.5, 80) := rfl
  have t4 : MULTIPLIER_TABLE.lookup "tier2_proven" = some (1.2, 70) := rfl
  have t5 : MULTIPLIER_TABLE.lookup "tier2_unproven" = some (0.8, 60) := rfl
  by_cases hs : context.silo = ""
  · simp [compute_context_multiplier, hs, t1]
  · rcases ha : env.getApprovedBrandForSilo context.silo with _ | brand
    · rcases hrev : check_revenue_exists env video_id with _ | _
      · simp [compute_context_multiplier, hs, ha, hrev, t5]
      · simp [compute_context_multiplier, hs, ha, hrev, t4]
    · rcases hd : context.latest_domination_score with _ | d
      · simp [compute_context_multiplier, hs, ha, hd, t3]
      · by_cases h90 : 90 ≤ d
        · have h90n : ¬d < 90 := not_lt.mpr h90
          simp [compute_context_multiplier, hs, ha, hd, h90, h90n, t2]
        · have h90l : d < 90 := lt_of_not_ge h90
          simp [compute_context_multiplier, hs, ha, hd, h90, h90l, t3]

/-- Witness for C2 at a concrete tier-1 environment with domination ≥ 90. -/
theorem C2_witness :
    (compute_context_multiplier envTier1 "v" ctxTier1).multiplier = 1.0
    ∧ (compute_context_multiplier envTier1 "v" ctxTier1).quality_floor = 70 :=
  ((C2_context_multiplier_table envTier1 "v" ctxTier1).2.1
    (by simp [ctxTier1]) (by simp [envTier1, ctxTier1])).2.1 95 rfl (by norm_num)

/-! ## C3: the AI gates fail open on LLM failure -/

/-- C3: when the single LLM call behind the four AI-assisted gates errors
(or its response is unparseable), the gate checker returns exactly the four
fail-open results — all passed, each recording "gate check unavailable" —
and no error is produced by the LLM stage itself (with no keyword there is
no warehouse access at all, and the checker returns them outright). -/
theorem C3_ai_gates_fail_open (env : Env) (video_id transcript title : String)
    (context : VideoContext) (e : PyError) (h : env.aiGateLLM = .error e) :
    (∀ rs, run_ai_gate_checks env video_id transcript title context = .ok rs →
      rs = aiGateFailOpen ∧ rs.length = 4
      ∧ ∀ g ∈ rs, g.passed = true
          ∧ containsLower g.failure_reason "gate check unavailable" = true)
    ∧ (∀ s, ai_gate_sibling_summaries env video_id context.main_keyword = .ok s →
      run_ai_gate_checks env video_id transcript title context = .ok aiGateFailOpen)
    ∧ (context.main_keyword = "" →
      run_ai_gate_checks env video_id transcript title context = .ok aiGateFailOpen) := by
  refine ⟨?_, ?_, ?_⟩
  · intro rs hrs
    unfold run_ai_gate_checks at hrs
    cases hsum : ai_gate_sibling_summaries env video_id context.main_keyword with
    | error e2 => rw [hsum, h] at hrs; exact Except.noConfusion hrs
    | ok s =>
      rw [hsum, h] at hrs
      injection hrs with h4
      subst h4
      refine ⟨rfl, rfl, ?_⟩
      decide
  · intro s hs
    unfold run_ai_gate_checks
    rw [hs, h]
  · intro hk
    unfold run_ai_gate_checks ai_gate_sibling_summaries
    rw [hk]
    simp [h]

/-- Witness for C3: the AI-gate call of the default environment is down and the
context has no keyword, so the checker returns the four fail-open gates. -/
theorem C3_witness :
    run_ai_gate_checks {} "v" "t" "ti" {} = .ok aiGateFailOpen :=
  (C3_ai_gates_fail_open {} "v" "t" "ti" {} (.externalCall "down") rfl).2.2 rfl

/-! ## Facts about the substring test -/

theorem infixOf_iff {nd hay : List Char} : infixOf nd hay = true ↔ nd <:+: hay := by
  induction hay with
  | nil => simp [infixOf, List.isEmpty_iff]
  | cons c cs ih => simp [infixOf, List.isPrefixOf_iff_prefix, ih, List.infix_cons_iff]

theorem strContains_self (s : String) : strContains s s = true :=
  infixOf_iff.mpr (List.infix_refl _)

theorem strContains_append_of_left (a b s : String) (h : strContains a s = true) :
    strContains (a ++ b) s = true := by
  rw [strContains] at h ⊢
  rw [String.data_append]
  exact infixOf_iff.mpr ((infixOf_iff.mp h).trans (List.prefix_append _ _).isInfix)

theorem strContains_append_of_right (a b s : String) (h : strContains b s = true) :
    strContains (a ++ b) s = true := by
  rw [strContains] at h ⊢
  rw [String.data_append]
  exact infixOf_iff.mpr ((infixOf_iff.mp h).trans (List.suffix_append _ _).isInfix)

/-! ## C5: the score store is an upsert, not append-only -/

/-- C5 counterexample: storing a second record with the same
`(video_id, scored_at)` key replaces the first — the original row is no
longer in the store. -/
theorem C5_counterexample :
    mkRow scoreA ∈ store_script_score [] scoreA
    ∧ mkRow scoreA ∉ store_script_score (store_script_score [] scoreA) scoreB := by
  constructor
  · show mkRow scoreA ∈ [mkRow scoreA]
    exact List.mem_singleton.mpr rfl
  · intro hmem
    have hm : mkRow scoreA ∈ [mkRow scoreB] := hmem
    rw [List.mem_singleton] at hm
    have hv := congrArg ScriptScoreRow.scoring_version hm
    simp [mkRow, scoreA, scoreB] at hv

/-- C5 (amended): `store_script_score` appends when the
`(video_id, scored_at)` key is fresh, and in every case leaves each row
with a different key unchanged in the store; only the row sharing the key
of the stored record is replaced. -/
theorem C5_append_or_replace (table : List ScriptScoreRow) (s : ScriptScore) :
    (table.any (rowKeyMatches s) = false →
      store_script_score table s = table ++ [mkRow s])
    ∧ (∀ r ∈ table, rowKeyMatches s r = false →
      r ∈ store_script_score table s) := by
  constructor
  · intro h
    simp [store_script_score, h]
  · intro r hr hkey
    by_cases hany : table.any (rowKeyMatches s) = true
    · simp only [store_script_score, hany, if_true]
      exact List.mem_map.mpr ⟨r, hr, by simp [hkey]⟩
    · simp only [store_script_score, hany, if_false, Bool.false_eq_true]
      exact List.mem_append_left _ hr

/-- Witness for C5 at concrete records: a fresh-key store appends and keeps
the old row. -/
theorem C5_witness :
    store_script_score [mkRow scoreA] scoreC = [mkRow scoreA] ++ [mkRow scoreC]
    ∧ mkRow scoreA ∈ store_script_score [mkRow scoreA] scoreC :=
  ⟨(C5_append_or_replace [mkRow scoreA] scoreC).1 (by decide),
   (C5_append_or_replace [mkRow scoreA] scoreC).2 (mkRow scoreA)
     (List.mem_singleton.mpr rfl) (by decide)⟩

/-! ## C8: the SEO title gate -/

/-- C8 counterexample: keyword `"ab"` has no words of length ≥ 3, so the
"≥ 60 % of the significant words" condition holds vacuously
(`0 ≥ 0.6 · 0`), yet the gate fails on a title containing neither. -/
theorem C8_counterexample :
    seoKeywordWords (pyLower "ab") = []
    ∧ ((seoKeywordWords (pyLower "ab")).length : ℚ) * 0.6
        ≤ (seoMatches (pyLower "zzz") (pyLower "ab") : ℚ)
    ∧ strContains (pyLower "zzz") (pyLower "ab") = false
    ∧ ("" : String) ≠ "ab"
    ∧ (check_seo_title "zzz" { main_keyword := "ab" }).passed = false := by
  refine ⟨by decide, ?_, by decide, by decide, by decide⟩
  norm_num [show seoKeywordWords (pyLower "ab") = [] from by decide,
    show seoMatches (pyLower "zzz") (pyLower "ab") = 0 from by decide]

/-- C8 (amended): with no keyword the gate auto-passes; otherwise it passes
iff the keyword occurs case-insensitively in the title, or the list of
significant keyword words (length ≥ 3) is *nonempty* and at least 60 % of
them occur in the title; on failure the reason names both the keyword and
the title.  (A keyword with no significant words and no exact match fails,
although "at least 60 % of those words" holds vacuously.) -/
theorem C8_seo_title_gate (title : String) (context : VideoContext) :
    let r := check_seo_title title context
    (r.passed = true ↔
      (context.main_keyword = ""
        ∨ strContains (pyLower title) (pyLower context.main_keyword) = true
        ∨ (seoKeywordWords (pyLower context.main_keyword) ≠ []
            ∧ ((seoKeywordWords (pyLower context.main_keyword)).length : ℚ) * 0.6
              ≤ (seoMatches (pyLower title) (pyLower context.main_keyword) : ℚ))))
    ∧ (r.passed = false →
        strContains r.failure_reason context.main_keyword = true
        ∧ strContains r.failure_reason title = true) := by
  by_cases hk : context.main_keyword = ""
  · simp [check_seo_title, hk]
  · by_cases hsub : strContains (pyLower title) (pyLower context.main_keyword) = true
    · simp [check_seo_title, hk, hsub]
    · by_cases hw : seoKeywordWords (pyLower context.main_keyword) ≠ []
        ∧ ((seoKeywordWords (pyLower context.main_keyword)).length : ℚ) * 0.6
          ≤ (seoMatches (pyLower title) (pyLower context.main_keyword) : ℚ)
      · simp [check_seo_title, hk, hsub, hw]
      · have hfail :
            (check_seo_title title context).passed = false ∧
            (check_seo_title title context).failure_reason
              = "Target keyword \x27" ++ context.main_keyword
                ++ "\x27 not found in title \x27" ++ title ++ "\x27" := by
          rw [check_seo_title]
          simp [hk, hsub, hw]
        refine ⟨?_, ?_⟩
        · rw [hfail.1]
          simp [hk, hsub, hw]
        · intro _
          rw [hfail.2]
          constructor
          · exact strContains_append_of_left _ _ _
              (strContains_append_of_left _ _ _
                (strContains_append_of_left _ _ _
                  (strContains_append_of_right _ _ _
                    (strContains_self context.main_keyword))))
          · exact strContains_append_of_left _ _ _
              (strContains_append_of_right _ _ _ (strContains_self title))

/-- Witness for C8 at a concrete exact-match title and a failing title. -/
theorem C8_witness :
    (check_seo_title "Best Router 2026" { main_keyword := "best router" }).passed = true
    ∧ (check_seo_title "guide" { main_keyword := "best router" }).passed = false
    ∧ strContains
        (check_seo_title "guide" { main_keyword := "best router" }).failure_reason
        "best router" = true := by
  refine ⟨?_, ?_, ?_⟩
  · exact ((C8_seo_title_gate "Best Router 2026" { main_keyword := "best router" }).1).mpr
      (Or.inr (Or.inl (by decide)))
  · by_contra hp
    have hp' : (check_seo_title "guide" { main_keyword := "best router" }).passed = true := by
      revert hp
      cases (check_seo_title "guide" { main_keyword := "best router" }).passed <;> simp
    have := ((C8_seo_title_gate "guide" { main_keyword := "best router" }).1).mp hp'
    rcases this with h1 | h2 | ⟨h3, h4⟩
    · exact absurd h1 (by decide)
    · exact absurd h2 (by decide)
    · rw [show seoMatches (pyLower "guide") (pyLower "best router") = 0 from by decide,
        show seoKeywordWords (pyLower "best router") = ["best".data, "router".data] from by decide] at h4
      norm_num at h4
  · have hp : (check_seo_title "guide" { main_keyword := "best router" }).passed = false := by
      by_contra hp
      have hp' : (check_seo_title "guide" { main_keyword := "best router" }).passed = true := by
        revert hp
        cases (check_seo_title "guide" { main_keyword := "best router" }).passed <;> simp
      have := ((C8_seo_title_gate "guide" { main_keyword := "best router" }).1).mp hp'
      rcases this with h1 | h2 | ⟨h3, h4⟩
      · exact absurd h1 (by decide)
      · exact absurd h2 (by decide)
      · rw [show seoMatches (pyLower "guide") (pyLower "best router") = 0 from by decide,
          show seoKeywordWords (pyLower "best router") = ["best".data, "router".data] from by decide] at h4
        norm_num at h4
    exact ((C8_seo_title_gate "guide" { main_keyword := "best router" }).2 hp).1

/-! ## C9: the vocal scorer degrades without emotion data -/

/-- C9: with no emotion payload (or an empty segment list) the vocal
sub-scorer reports `available = false` and a raw total equal to the two
transcript-derived sub-metrics rescaled from 0–40 to 0–100. -/
theorem C9_vocal_degraded (emotions : Option EmotionsData) (transcript : String)
    (duration : ℚ) (h : noEmotionData emotions = true) :
    (score_rizz_vocal emotions transcript duration).available = false
    ∧ (score_rizz_vocal emotions transcript duration).total_raw
      = pyRound1 ((((score_rizz_vocal emotions transcript duration).filler_density_score
          + (score_rizz_vocal emotions transcript duration).pacing_variation_score : ℤ) : ℚ)
            / 40 * 100) := by
  match emotions with
  | none => constructor <;> simp [score_rizz_vocal]
  | some ed =>
    have hseg : ed.segments.isEmpty = true := by simpa [noEmotionData] using h
    constructor <;> simp [score_rizz_vocal, hseg]

/-- Witness for C9 at `emotion_segments = None` on the empty transcript. -/
theorem C9_witness :
    (score_rizz_vocal none "" 0).available = false
    ∧ (score_rizz_vocal none "" 0).total_raw
      = pyRound1 ((((score_rizz_vocal none "" 0).filler_density_score
          + (score_rizz_vocal none "" 0).pacing_variation_score : ℤ) : ℚ) / 40 * 100) :=
  C9_vocal_degraded none "" 0 rfl

/-! ## C10: the personality-density fallback -/

/-- C10: if the personality-density LLM call raises (or its response is
unparseable), the sub-scorer returns the fixed fallback sub-score 10 with
an empty moments list, and the copy scorer (hence `score_rizz`) still
completes with that value in place. -/
theorem C10_personality_fallback (env : Env) (video_id transcript : String)
    (emotions : Option EmotionsData) (dm duration : ℚ) (err : PyError)
    (h : env.personalityLLM = .error err) :
    score_personality_density env transcript dm
      = { score := 10, moments := [], total_count := 0, per_minute := 0 }
    ∧ (score_rizz env video_id transcript emotions duration).rizz_details.copy.personality_density
      = 10 := by
  have hfall : ∀ dm2 : ℚ, score_personality_density env transcript dm2
      = { score := 10, moments := [], total_count := 0, per_minute := 0 } := by
    intro dm2
    unfold score_personality_density
    rw [h]
  refine ⟨hfall dm, ?_⟩
  show (score_rizz_copy env video_id transcript duration).personality_density = 10
  unfold score_rizz_copy
  simp only [hfall]

/-- Witness for C10: the personality call of the default environment is down. -/
theorem C10_witness :
    score_personality_density {} "" 1
      = { score := 10, moments := [], total_count := 0, per_minute := 0 }
    ∧ (score_rizz {} "v" "" none 0).rizz_details.copy.personality_density = 10 :=
  C10_personality_fallback {} "v" "" none 1 0 (.externalCall "down") rfl

/-! ## C1: the quality grand total -/

/-- C1 counterexample: a parsed response whose reported total (199.5) is
within 1 point of its dimension sum (200) is returned as-is by
`score_quality` — outside [0, 100] and different from the dimension sum,
refuting "`quality_score_total` ∈ [0,100] and equals the sum of the six
dimension totals with deviation ±0". -/
theorem C1_counterexample :
    score_quality envOutOfRange = some (quality_result_of_data qdataOutOfRange)
    ∧ (quality_result_of_data qdataOutOfRange).quality_score_total = 399 / 2
    ∧ qualityDimSum (quality_result_of_data qdataOutOfRange) = 200
    ∧ ¬((quality_result_of_data qdataOutOfRange).quality_score_total ≤ 100
        ∧ (quality_result_of_data qdataOutOfRange).quality_score_total
            = qualityDimSum (quality_result_of_data qdataOutOfRange)) := by
  have hsum : qualityDimSum (quality_result_of_data qdataOutOfRange) = 200 := by
    show (200 : ℚ) + 0 + 0 + 0 + 0 + 0 = 200
    norm_num
  have hcond : ¬(1 < |(399 / 2 : ℚ) - (200 + 0 + 0 + 0 + 0 + 0)|) := by
    rw [show (399 / 2 : ℚ) - (200 + 0 + 0 + 0 + 0 + 0) = -(1 / 2) from by norm_num,
      abs_neg, abs_of_nonneg (by norm_num : (0 : ℚ) ≤ 1 / 2)]
    norm_num
  have htot : (quality_result_of_data qdataOutOfRange).quality_score_total = 399 / 2 := by
    show (if 1 < |(399 / 2 : ℚ) - (200 + 0 + 0 + 0 + 0 + 0)|
      then pyRound1 (200 + 0 + 0 + 0 + 0 + 0) else 399 / 2) = 399 / 2
    rw [if_neg hcond]
  refine ⟨rfl, htot, hsum, ?_⟩
  rintro ⟨hle, -⟩
  rw [htot] at hle
  norm_num at hle

/-- C1 (amended): after parsing, the returned total always lies within one
point of the dimension sum: it is the reported total when that deviates
from the sum by at most 1, and `round(sum, 1)` when the deviation exceeds
1; the total lies in [0, 100] whenever the reported numbers respect the
ranges documented in the prompt (total 0–100, dimensions 25/20/20/15/10/10). -/
theorem C1_quality_total (data : QualityData) :
    let r := quality_result_of_data data
    |r.quality_score_total - qualityDimSum r| ≤ 1
    ∧ (1 < |data.quality_score_total.getD 0 - qualityDimSum r| →
        r.quality_score_total = pyRound1 (qualityDimSum r))
    ∧ (|data.quality_score_total.getD 0 - qualityDimSum r| ≤ 1 →
        r.quality_score_total = data.quality_score_total.getD 0)
    ∧ (qualityInRange data →
        0 ≤ r.quality_score_total ∧ r.quality_score_total ≤ 100) := by
  intro r
  have hsum : qualityDimSum r = dimTotal data.specificity_proof_density
      + dimTotal data.conversion_architecture + dimTotal data.retention_architecture
      + dimTotal data.authenticity_voice + dimTotal data.viewer_sophistication
      + dimTotal data.production_standards := rfl
  have htot : r.quality_score_total =
      if 1 < |data.quality_score_total.getD 0 - qualityDimSum r|
      then pyRound1 (qualityDimSum r) else data.quality_score_total.getD 0 := rfl
  by_cases hc : 1 < |data.quality_score_total.getD 0 - qualityDimSum r|
  · rw [htot, if_pos hc]
    have h1 : |pyRound1 (qualityDimSum r) - qualityDimSum r| ≤ 1 :=
      le_trans (abs_pyRound1_sub _) (by norm_num)
    refine ⟨h1, fun _ => rfl, fun hle => absurd hc (not_lt.mpr hle), fun hin => ?_⟩
    obtain ⟨ht0, ht100, h1a, h1b, h2a, h2b, h3a, h3b, h4a, h4b, h5a, h5b, h6a, h6b⟩ := hin
    have hs0 : 0 ≤ qualityDimSum r := by rw [hsum]; linarith
    have hs100 : qualityDimSum r ≤ 100 := by rw [hsum]; linarith
    refine ⟨pyRound1_nonneg hs0, ?_⟩
    have := pyRound1_le_int (x := qualityDimSum r) (n := 100) (by exact_mod_cast hs100)
    exact_mod_cast this
  · rw [htot, if_neg hc]
    refine ⟨not_lt.mp hc, fun h' => absurd h' hc, fun _ => rfl, fun hin => ?_⟩
    exact ⟨hin.1, hin.2.1⟩

/-- Witness for C1 at a concrete in-range response whose reported total
under-counts by 4: the recomputed sum is returned and lies in range. -/
theorem C1_witness :
    (quality_result_of_data qdataDemo).quality_score_total
      = pyRound1 (qualityDimSum (quality_result_of_data qdataDemo))
    ∧ 0 ≤ (quality_result_of_data qdataDemo).quality_score_total
    ∧ (quality_result_of_data qdataDemo).quality_score_total ≤ 100 := by
  have h := C1_quality_total qdataDemo
  have hin : qualityInRange qdataDemo := by
    refine ⟨?_, ?_, ?_, ?_, ?_, ?_, ?_, ?_, ?_, ?_, ?_, ?_, ?_, ?_⟩ <;>
      · show _
        norm_num [qdataDemo, dimTotal]
  have hc : 1 < |(qdataDemo.quality_score_total.getD 0 : ℚ)
      - qualityDimSum (quality_result_of_data qdataDemo)| := by
    show 1 < |(70 : ℚ) - ((20 : ℚ) + 15 + 15 + 10 + 8 + 6)|
    rw [show (70 : ℚ) - ((20 : ℚ) + 15 + 15 + 10 + 8 + 6) = -4 from by norm_num,
      abs_neg, abs_of_nonneg (by norm_num : (0 : ℚ) ≤ 4)]
    norm_num
  exact ⟨h.2.1 hc, (h.2.2.2 hin).1, (h.2.2.2 hin).2⟩

/-! ## C4 and C6: the orchestrator -/

theorem except_isOk_ok (a : α) : (Except.ok a : Except ε α).isOk = true := rfl

theorem except_isOk_error (e : ε) : (Except.error e : Except ε α).isOk = false := rfl

theorem gatherSiblings_ok (env : Env)
    (h2 : ∀ v, (env.bqGetTranscript v).isOk = true) :
    ∀ sibs, (gatherSiblings env sibs).isOk = true := by
  intro sibs
  induction sibs with
  | nil => rfl
  | cons s rest ih =>
    unfold gatherSiblings siblingBlock
    cases hb : env.bqGetTranscript s.video_id with
    | error e =>
      have hv := h2 s.video_id
      rw [hb, except_isOk_error] at hv
      exact absurd hv (by simp)
    | ok t =>
      cases hrest : gatherSiblings env rest with
      | error e => rw [hrest, except_isOk_error] at ih; exact absurd ih (by simp)
      | ok more =>
        cases t with
        | none => simp [hrest, except_isOk_ok]
        | some tr =>
          by_cases htr : tr = ""
          · simp [htr, hrest, except_isOk_ok]
          · simp [htr, hrest, except_isOk_ok]

theorem run_gate_checks_ok (env : Env) (vid t ti d : String) (ctx : VideoContext)
    (h1 : ∀ v k n, (env.getSiblingVideoIds v k n).isOk = true)
    (h2 : ∀ v, (env.bqGetTranscript v).isOk = true) :
    (run_gate_checks env vid t ti d ctx).isOk = true := by
  have hsum : (ai_gate_sibling_summaries env vid ctx.main_keyword).isOk = true := by
    unfold ai_gate_sibling_summaries
    by_cases hk : ctx.main_keyword ≠ ""
    · rw [if_pos hk]
      cases hs : env.getSiblingVideoIds vid ctx.main_keyword 3 with
      | error e =>
        have hv := h1 vid ctx.main_keyword 3
        rw [hs, except_isOk_error] at hv
        exact absurd hv (by simp)
      | ok sibs => exact gatherSiblings_ok env h2 sibs
    · rw [if_neg hk]
      rfl
  have hai : (run_ai_gate_checks env vid t ti ctx).isOk = true := by
    unfold run_ai_gate_checks
    cases hsum2 : ai_gate_sibling_summaries env vid ctx.main_keyword with
    | error e =>
      rw [hsum2, except_isOk_error] at hsum
      exact absurd hsum (by simp)
    | ok s =>
      simp only [hsum2]
      cases env.aiGateLLM <;> rfl
  unfold run_gate_checks
  cases hh : run_ai_gate_checks env vid t ti ctx with
  | error e =>
    rw [hh, except_isOk_error] at hai
    exact absurd hai (by simp)
  | ok ai => simp [hh, except_isOk_ok]

/-- Shared completion lemma: `score_video` returns a record whenever the
warehouse sibling fetch and sibling-transcript reads succeed — for *any*
outcome of the three LLM calls, the context fetch, the revenue check and
the local transcript read. -/
theorem score_video_ok (env : Env) (video_id transcript title description : String)
    (duration : ℚ)
    (h1 : ∀ v k n, (env.getSiblingVideoIds v k n).isOk = true)
    (h2 : ∀ v, (env.bqGetTranscript v).isOk = true) :
    ∃ rec, score_video env video_id transcript title description duration = .ok rec := by
  have hok := run_gate_checks_ok env video_id transcript title description
    (get_video_context_caught env video_id) h1 h2
  simp only [score_video]
  cases hg : run_gate_checks env video_id transcript title description
      (get_video_context_caught env video_id) with
  | error e =>
    rw [hg, except_isOk_error] at hok
    exact absurd hok (by simp)
  | ok gates => exact ⟨_, rfl⟩

/-- C4 counterexample: with a keyword assigned, one sibling video, and a
warehouse outage on `bigquery.get_transcript`, `score_video` propagates an
`ExternalCallError` to its caller — an exception that is not a
video/transcript-not-found precondition failure. -/
theorem C4_counterexample :
    score_video envSiblingDown "v1" "t" "ti" "d" 0
      = .error (.externalCall "bigquery down")
    ∧ (PyError.externalCall "bigquery down").isNotFound = false :=
  ⟨rfl, rfl⟩

/-- C4 (amended): `score_video` completes and returns a record whenever the
warehouse calls made while gathering sibling transcripts for the AI gates
succeed; every other sub-scorer failure (the three LLM calls, the context
fetch, the revenue check, the local transcript read) is isolated and only
degrades fields.  A warehouse failure during sibling gathering, however,
propagates to the caller (and not as a not-found error). -/
theorem C4_score_video_total (env : Env)
    (video_id transcript title description : String) (duration : ℚ)
    (h1 : ∀ v k n, (env.getSiblingVideoIds v k n).isOk = true)
    (h2 : ∀ v, (env.bqGetTranscript v).isOk = true) :
    ∃ rec, score_video env video_id transcript title description duration = .ok rec :=
  score_video_ok env video_id transcript title description duration h1 h2

/-- Witness for C4: the default environment (LLM calls down, no siblings)
still yields a record. -/
theorem C4_witness :
    ∃ rec, score_video {} "v" "" "" "" 0 = .ok rec :=
  C4_score_video_total {} "v" "" "" "" 0 (fun _ _ _ => rfl) (fun _ => rfl)

/-- C6: in every returned record, `multiplied_score` and
`passes_quality_floor` are set iff a quality total was produced, and then
`multiplied_score = round(quality_score_total * context_multiplier, 1)` and
`passes_quality_floor = (quality_score_total ≥ quality_floor)`. -/
theorem C6_multiplied_score (env : Env)
    (video_id transcript title description : String) (duration : ℚ)
    (rec : ScriptScore)
    (h : score_video env video_id transcript title description duration = .ok rec) :
    (rec.quality_score_total = none →
      rec.multiplied_score = none ∧ rec.passes_quality_floor = none)
    ∧ ∀ q, rec.quality_score_total = some q →
        rec.multiplied_score = some (pyRound1 (q * rec.context_multiplier))
        ∧ rec.passes_quality_floor = some (decide (rec.quality_floor ≤ q)) := by
  simp only [score_video] at h
  cases hg : run_gate_checks env video_id transcript title description
      (get_video_context_caught env video_id) with
  | error e => rw [hg] at h; exact Except.noConfusion h
  | ok gates =>
    rw [hg] at h
    injection h with hrec
    subst hrec
    cases hq : score_quality env with
    | none =>
      cases hr : rizz_attempt env video_id transcript duration with
      | ok r => simp [hq, hr]
      | error e => simp [hq, hr]
    | some qres =>
      cases hr : rizz_attempt env video_id transcript duration with
      | ok r => simp [hq, hr]
      | error e => simp [hq, hr]

/-- Witness for C6: a run of `score_video` in an environment whose quality
call succeeds; the `multiplied_score` of the record follows the formula. -/
theorem C6_witness :
    ∃ rec, score_video envQualityDemo "v" "" "" "" 0 = .ok rec
    ∧ ∀ q, rec.quality_score_total = some q →
        rec.multiplied_score = some (pyRound1 (q * rec.context_multiplier)) := by
  obtain ⟨rec, hrec⟩ :=
    score_video_ok envQualityDemo "v" "" "" "" 0 (fun _ _ _ => rfl) (fun _ => rfl)
  exact ⟨rec, hrec, fun q hq =>
    ((C6_multiplied_score envQualityDemo "v" "" "" "" 0 rec hrec).2 q hq).1⟩

/-! ## C7: the rizz score -/

theorem clamp20_bounds (s : ℤ) : 0 ≤ min 20 (max 0 s) ∧ min 20 (max 0 s) ≤ 20 :=
  ⟨le_min (by norm_num) (le_max_left 0 s), min_le_left _ _⟩

theorem consistencyOf_bounds (std : ℚ) :
    0 ≤ consistencyOf std ∧ consistencyOf std ≤ 20 :=
  ⟨le_min (by norm_num) (le_max_left _ _), min_le_left _ _⟩

theorem ite_consistency_bounds (c : Prop) [Decidable c] (std : ℚ) :
    0 ≤ (if c then consistencyOf std else (10 : ℤ))
    ∧ (if c then consistencyOf std else (10 : ℤ)) ≤ 20 := by
  split_ifs with hc
  · exact consistencyOf_bounds std
  · norm_num

theorem convictionOf_bounds (avg : ℚ) (h : 0 ≤ avg) :
    0 ≤ convictionOf avg ∧ convictionOf avg ≤ 20 := by
  unfold convictionOf
  refine ⟨le_min (by norm_num) (pyRoundZ_nonneg ?_), min_le_left _ _⟩
  positivity

theorem ctaDeltaScoreOf_bounds (delta : ℚ) :
    0 ≤ ctaDeltaScoreOf delta ∧ ctaDeltaScoreOf delta ≤ 20 := by
  unfold ctaDeltaScoreOf
  by_cases hd : 0 ≤ delta
  · rw [if_pos hd]
    exact ⟨le_min (by norm_num) (pyRoundZ_nonneg (by positivity)), min_le_left _ _⟩
  · rw [if_neg hd]
    refine ⟨le_max_left _ _, max_le (by norm_num) ?_⟩
    have hneg : delta / 0.05 * 10 < 0 := by
      have hd' : delta < 0 := lt_of_not_ge hd
      have h1 : delta / 0.05 < 0 := div_neg_of_neg_of_pos hd' (by norm_num)
      exact mul_neg_of_neg_of_pos h1 (by norm_num)
    have h10 : pyRoundZ (10 + delta / 0.05 * 10) ≤ 10 := pyRoundZ_le (by push_cast; linarith)
    linarith

theorem pacingScoreOfCv_bounds (cv : ℚ) :
    0 ≤ pacingScoreOfCv cv ∧ pacingScoreOfCv cv ≤ 20 := by
  unfold pacingScoreOfCv
  split_ifs with h1 h2
  · norm_num
  · refine ⟨le_trans (by norm_num) (le_max_left 5 _), max_le (by norm_num) ?_⟩
    apply pyRoundZ_le
    have h3 : cv / 0.15 < 1 := (div_lt_one (by norm_num)).mpr h2
    have h4 : cv / 0.15 * 20 < 1 * 20 := mul_lt_mul_of_pos_right h3 (by norm_num)
    push_cast
    linarith
  · have hcv : (0.35 : ℚ) < cv := by
      rcases not_and_or.mp h1 with h | h
      · exact absurd (le_of_not_lt h2) h
      · exact lt_of_not_ge h
    refine ⟨le_trans (by norm_num) (le_max_left 5 _), max_le (by norm_num) ?_⟩
    apply pyRoundZ_le
    have h5 : 0 < (cv - 0.35) * 30 := mul_pos (by linarith) (by norm_num)
    push_cast
    linarith

theorem compute_pacing_variation_bounds (t : String) (d : ℚ) :
    0 ≤ compute_pacing_variation t d ∧ compute_pacing_variation t d ≤ 20 := by
  unfold compute_pacing_variation
  dsimp only
  split_ifs <;> first | exact pacingScoreOfCv_bounds _ | norm_num

theorem threeLe_decisiveScoreOf (r : ℚ) : 3 ≤ decisiveScoreOf r := by
  unfold decisiveScoreOf
  split_ifs <;> norm_num

theorem threeLe_firstPersonScoreOf (r : ℚ) : 3 ≤ firstPersonScoreOf r := by
  unfold firstPersonScoreOf
  split_ifs <;> norm_num

theorem threeLe_personalityScoreOf (r : ℚ) : 3 ≤ personalityScoreOf r := by
  unfold personalityScoreOf
  split_ifs <;> norm_num

theorem personality_score_bounds (env : Env) (t : String) (dm : ℚ) :
    0 ≤ (score_personality_density env t dm).score
    ∧ (score_personality_density env t dm).score ≤ 25 := by
  unfold score_personality_density
  cases hp : env.personalityLLM with
  | ok d =>
    exact ⟨le_min (by norm_num)
      (le_trans (by norm_num) (threeLe_personalityScoreOf _)), min_le_left _ _⟩
  | error e => norm_num

theorem pyMean_nonneg {l : List ℚ} (h : ∀ x ∈ l, 0 ≤ x) : 0 ≤ pyMean l :=
  div_nonneg (List.sum_nonneg h) (by positivity)

theorem hume_total_spec (a b c fs ps : ℤ)
    (ha : 0 ≤ a) (hb : 0 ≤ b) (hc : 0 ≤ c) (hf : 0 ≤ fs) (hp : 0 ≤ ps) :
    0 ≤ ((min 100 (a + b + c + fs + ps) : ℤ) : ℚ)
    ∧ ((min 100 (a + b + c + fs + ps) : ℤ) : ℚ) ≤ 100
    ∧ TenthGrid ((min 100 (a + b + c + fs + ps) : ℤ) : ℚ) := by
  refine ⟨?_, ?_, tenthGrid_intCast _⟩
  · exact_mod_cast le_min (by norm_num) (by linarith)
  · exact_mod_cast min_le_left (100 : ℤ) _

theorem min100_of_four {p s d f : ℤ} (hp : 0 ≤ p) (hs : 0 ≤ s) (hd : 0 ≤ d) (hf : 0 ≤ f) :
    0 ≤ min 100 (p + s + d + f) ∧ min 100 (p + s + d + f) ≤ 100 :=
  ⟨le_min (by norm_num) (by linarith), min_le_left _ _⟩

theorem copy_total_bounds (env : Env) (vid t : String) (dur : ℚ) :
    (0 : ℤ) ≤ (score_rizz_copy env vid t dur).total_raw
    ∧ (score_rizz_copy env vid t dur).total_raw ≤ 100 := by
  unfold score_rizz_copy
  dsimp only
  split_ifs <;>
    · dsimp only
      exact min100_of_four (personality_score_bounds env t _).1
        (by norm_num)
        (le_min (by norm_num) (le_trans (by norm_num) (threeLe_decisiveScoreOf _)))
        (le_min (by norm_num) (le_trans (by norm_num) (threeLe_firstPersonScoreOf _)))

theorem vocal_total_spec (e : Option EmotionsData) (t : String) (d : ℚ)
    (h : NonnegEmotions e) :
    0 ≤ (score_rizz_vocal e t d).total_raw
    ∧ (score_rizz_vocal e t d).total_raw ≤ 100
    ∧ TenthGrid (score_rizz_vocal e t d).total_raw := by
  have hdeg : ∀ fs ps : ℤ, 0 ≤ fs → fs ≤ 20 → 0 ≤ ps → ps ≤ 20 →
      0 ≤ pyRound1 (((fs + ps : ℤ) : ℚ) / 40 * 100)
      ∧ pyRound1 (((fs + ps : ℤ) : ℚ) / 40 * 100) ≤ 100
      ∧ TenthGrid (pyRound1 (((fs + ps : ℤ) : ℚ) / 40 * 100)) := by
    intro fs ps h1 h2 h3 h4
    have hsc : (0 : ℚ) ≤ ((fs + ps : ℤ) : ℚ) := by exact_mod_cast add_nonneg h1 h3
    have hsc40 : ((fs + ps : ℤ) : ℚ) ≤ 40 := by exact_mod_cast add_le_add h2 h4
    refine ⟨pyRound1_nonneg ?_, ?_, tenthGrid_pyRound1 _⟩
    · exact mul_nonneg (div_nonneg hsc (by norm_num)) (by norm_num)
    · have hle : ((fs + ps : ℤ) : ℚ) / 40 * 100 ≤ 100 := by
        rw [div_mul_eq_mul_div, div_le_iff₀ (by norm_num : (0:ℚ) < 40)]
        linarith
      have h100 := pyRound1_le_int (n := 100) (by exact_mod_cast hle)
      exact_mod_cast h100
  have hpac := compute_pacing_variation_bounds t d
  unfold score_rizz_vocal
  dsimp only
  cases e with
  | none =>
    exact hdeg _ _ (clamp20_bounds _).1 (clamp20_bounds _).2 hpac.1 hpac.2
  | some ed =>
    dsimp only
    cases hseg : ed.segments.isEmpty with
    | true =>
      rw [if_pos rfl]
      exact hdeg _ _ (clamp20_bounds _).1 (clamp20_bounds _).2 hpac.1 hpac.2
    | false =>
      rw [if_neg (by simp)]
      cases hconf : (confidencePerSegment ed.segments).isEmpty with
      | true =>
        rw [if_pos rfl]
        exact hdeg _ _ (clamp20_bounds _).1 (clamp20_bounds _).2 hpac.1 hpac.2
      | false =>
        rw [if_neg (by simp)]
        have hcn : ∀ x ∈ confidencePerSegment ed.segments, 0 ≤ x := by
          intro x hx
          obtain ⟨seg, hsg, rfl⟩ := List.mem_map.mp hx
          refine List.sum_nonneg ?_
          intro y hy
          obtain ⟨em, hem, rfl⟩ := List.mem_map.mp hy
          exact h seg hsg em (List.mem_filter.mp hem).1
        have havg := pyMean_nonneg hcn
        exact hume_total_spec _ _ _ _ _
          (convictionOf_bounds _ havg).1
          (ite_consistency_bounds _ _).1
          (ctaDeltaScoreOf_bounds _).1
          (clamp20_bounds _).1 hpac.1

/-- C7 (amended): for every input the rizz score is exactly
`round(vocal_raw*0.60 + copy_raw*0.40, 1)` (equivalently the sum of the two
rounded weighted halves); it lies in [0, 100] provided every supplied
emotion score is nonnegative (the code does not clamp a negative conviction
signal, see the counterexample). -/
theorem C7_rizz_formula (env : Env) (video_id transcript : String)
    (emotions : Option EmotionsData) (duration : ℚ) :
    let r := score_rizz env video_id transcript emotions duration
    r.rizz_score = pyRound1 (r.rizz_vocal_score + r.rizz_copy_score)
    ∧ r.rizz_score = pyRound1 (r.rizz_details.vocal.total_raw * 0.60
        + (r.rizz_details.copy.total_raw : ℚ) * 0.40)
    ∧ (NonnegEmotions emotions → 0 ≤ r.rizz_score ∧ r.rizz_score ≤ 100) := by
  intro r
  obtain ⟨hc0, hc100⟩ := copy_total_bounds env video_id transcript duration
  have hdet_v : r.rizz_details.vocal.total_raw
      = (score_rizz_vocal emotions transcript duration).total_raw := rfl
  have hdet_c : r.rizz_details.copy.total_raw
      = (score_rizz_copy env video_id transcript duration).total_raw := rfl
  have hvw : r.rizz_vocal_score
      = pyRound1 ((score_rizz_vocal emotions transcript duration).total_raw * 0.60) := rfl
  have hcw : r.rizz_copy_score
      = pyRound1 (((score_rizz_copy env video_id transcript duration).total_raw : ℚ) * 0.40) := rfl
  have hrz : r.rizz_score = pyRound1 (r.rizz_vocal_score + r.rizz_copy_score) := rfl
  have hgcw : TenthGrid (((score_rizz_copy env video_id transcript duration).total_raw : ℚ) * 0.40) :=
    ⟨4 * (score_rizz_copy env video_id transcript duration).total_raw, by push_cast; ring⟩
  have hcw_eq : r.rizz_copy_score
      = ((score_rizz_copy env video_id transcript duration).total_raw : ℚ) * 0.40 :=
    hcw.trans (pyRound1_eq_of_grid hgcw)
  have hgvw : TenthGrid r.rizz_vocal_score := hvw ▸ tenthGrid_pyRound1 _
  have hgcw2 : TenthGrid r.rizz_copy_score := hcw_eq ▸ hgcw
  have h2 : r.rizz_score = r.rizz_vocal_score + r.rizz_copy_score :=
    hrz.trans (pyRound1_eq_of_grid (tenthGrid_add hgvw hgcw2))
  have hsplit : pyRound1 ((score_rizz_vocal emotions transcript duration).total_raw * 0.60
        + ((score_rizz_copy env video_id transcript duration).total_raw : ℚ) * 0.40)
      = pyRound1 ((score_rizz_vocal emotions transcript duration).total_raw * 0.60)
        + ((score_rizz_copy env video_id transcript duration).total_raw : ℚ) * 0.40 :=
    pyRound1_add_grid hgcw
  have hc0q : (0 : ℚ) ≤ ((score_rizz_copy env video_id transcript duration).total_raw : ℚ) := by
    exact_mod_cast hc0
  have hc100q : ((score_rizz_copy env video_id transcript duration).total_raw : ℚ) ≤ 100 := by
    exact_mod_cast hc100
  have hcw0 : 0 ≤ r.rizz_copy_score := by
    rw [hcw_eq]
    exact mul_nonneg hc0q (by norm_num)
  have hcw40 : r.rizz_copy_score ≤ 40 := by
    rw [hcw_eq]
    have h1 : ((score_rizz_copy env video_id transcript duration).total_raw : ℚ) * 0.40
        ≤ 100 * 0.40 := mul_le_mul_of_nonneg_right hc100q (by norm_num)
    linarith
  refine ⟨hrz, ?_, ?_⟩
  · rw [hdet_v, hdet_c, h2, hvw, hcw_eq, hsplit]
  · intro h
    obtain ⟨hv0, hv100, hvg⟩ := vocal_total_spec emotions transcript duration h
    have hvw0 : 0 ≤ r.rizz_vocal_score := by
      rw [hvw]
      exact pyRound1_nonneg (mul_nonneg hv0 (by norm_num))
    have hvw60 : r.rizz_vocal_score ≤ 60 := by
      rw [hvw]
      have h1 : (score_rizz_vocal emotions transcript duration).total_raw * 0.60
          ≤ 100 * 0.60 := mul_le_mul_of_nonneg_right hv100 (by norm_num)
      have h60 := pyRound1_le_int
        (x := (score_rizz_vocal emotions transcript duration).total_raw * 0.60)
        (n := 60) (by push_cast; linarith)
      exact_mod_cast h60
    refine ⟨?_, ?_⟩
    · rw [h2]
      linarith [hvw0, hcw0]
    · rw [h2]
      linarith [hvw60, hcw40]

/-- C7 counterexample: with an (unchecked) negative emotion score the
conviction sub-metric `min(20, round(avg/0.5*20))` has no lower clamp, so
the rizz score leaves [0, 100] — here it is negative. -/
theorem C7_counterexample :
    (score_rizz {} "v" "" (some emoNegative) 60).rizz_score < 0 := by
  have hconf_list : confidencePerSegment emoNegative.segments = [-100, -100] := by
    simp [confidencePerSegment, emoNegative, CONFIDENCE_EMOTIONS]
  have hmean : pyMean [(-100 : ℚ), -100] = -100 := by
    norm_num [pyMean]
  have hmean1 : pyMean [(-100 : ℚ)] = -100 := by
    norm_num [pyMean]
  have hstd : pyStdev [(-100 : ℚ), -100] = 0 := by
    norm_num [pyStdev, pySampleVar, pyMean, ratSqrt]
  have hfc : fillerCount (pyLower "").data = 0 := by decide
  have hpacing : compute_pacing_variation "" 60 = 10 := by decide
  have hvoc : (score_rizz_vocal (some emoNegative) "" 60).total_raw = -3980 := by
    unfold score_rizz_vocal
    dsimp only
    rw [if_neg (by simp [emoNegative])]
    rw [if_neg (by simp [hconf_list])]
    dsimp only
    rw [hconf_list]
    norm_num [hmean, hmean1, hstd, hfc, hpacing, convictionOf, consistencyOf,
      ctaDeltaScoreOf, fillerScoreOf, pyRoundZ, round_eq, min_def, max_def]
  have hper : ∀ dm : ℚ, score_personality_density {} "" dm
      = { score := 10, moments := [], total_count := 0, per_minute := 0 } := fun _ => rfl
  have hsen : sentencesOf "" = [] := by decide
  have hdc : phraseCount (pyLower "").data DECISIVE_PHRASES = 0 := by decide
  have hhc : phraseCount (pyLower "").data HEDGING_PHRASES = 0 := by decide
  have hfp : phraseCount (pyLower "").data FIRST_PERSON_EXPERIENCE = 0 := by decide
  have hgc : phraseCount (pyLower "").data GENERIC_PRODUCT_PHRASES = 0 := by decide
  have hcop : (score_rizz_copy {} "v" "" 60).total_raw = 26 := by
    unfold score_rizz_copy
    dsimp only
    rw [hsen]
    norm_num [hper, hdc, hhc, hfp, hgc, decisiveScoreOf, firstPersonScoreOf,
      pyRoundZ, round_eq, min_def, max_def]
  show pyRound1 (pyRound1 ((score_rizz_vocal (some emoNegative) "" 60).total_raw * 0.60)
      + pyRound1 (((score_rizz_copy {} "v" "" 60).total_raw : ℚ) * 0.40)) < 0
  rw [hvoc, hcop]
  norm_num [pyRound1, pyRoundTo, round_eq]

/-- Witness for C7 at a concrete nonnegative emotion payload. -/
theorem C7_witness :
    0 ≤ (score_rizz {} "v" "" (some emoDemo) 60).rizz_score
    ∧ (score_rizz {} "v" "" (some emoDemo) 60).rizz_score ≤ 100 := by
  have hn : NonnegEmotions (some emoDemo) := by
    intro seg hs em he
    simp only [emoDemo, List.mem_singleton] at hs
    subst hs
    simp only [List.mem_singleton] at he
    subst he
    norm_num
  exact (C7_rizz_formula {} "v" "" (some emoDemo) 60).2.2 hn
